import Mathlib

/-!
Verification development for the EO-DataHub resource-catalogue order pipeline.

The definitions below are a shallow embedding of the order-fulfilment code in
`resource_catalogue_fastapi/__init__.py` and `resource_catalogue_fastapi/utils.py`:

* a JSON value model standing for the Python dicts the code manipulates,
* the enumerations (product bundles, licences, radar options, collections),
* the request validators (`validate_licence`, `validate_product_bundle`,
  `validate_radar_options`),
* the order tag derivation of `order_item`,
* the order-state encoder `update_stac_order_status`,
* the STAC hierarchy uploader `upload_stac_hierarchy_for_order`, and
* the order pipeline endpoint `order_item` itself,

with the external collaborators (HTTP fetches, the object store, the Pulsar
producer, the shapely intersection and the MD5 digest) supplied through an
explicit environment record, and the list of externally visible side effects
(HTTP GETs, blob writes, executor POSTs, notification publishes) returned as an
explicit trace.
-/

namespace RCat

/-! ## JSON values (the Python dict/list values the code manipulates) -/

/-- A JSON value: the shape of the Python objects parsed from STAC documents.
Numbers are modelled as integers (the documents handled by the claims only use
integer numbers). -/
inductive Json where
  | null
  | bool (b : Bool)
  | num (n : Int)
  | str (s : String)
  | arr (xs : List Json)
  | obj (kvs : List (String × Json))

mutual

/-- Decidable equality of JSON values (the automatic deriving does not handle
the nested `List` occurrences). -/
def Json.decEq : (a b : Json) → Decidable (a = b)
  | .null, .null => .isTrue rfl
  | .bool a, .bool b =>
      if h : a = b then .isTrue (by rw [h]) else .isFalse (fun he => h (by injection he))
  | .num a, .num b =>
      if h : a = b then .isTrue (by rw [h]) else .isFalse (fun he => h (by injection he))
  | .str a, .str b =>
      if h : a = b then .isTrue (by rw [h]) else .isFalse (fun he => h (by injection he))
  | .arr xs, .arr ys =>
      match Json.decEqList xs ys with
      | .isTrue h => .isTrue (by rw [h])
      | .isFalse h => .isFalse (fun he => h (by injection he))
  | .obj xs, .obj ys =>
      match Json.decEqObj xs ys with
      | .isTrue h => .isTrue (by rw [h])
      | .isFalse h => .isFalse (fun he => h (by injection he))
  | .null, .bool _ => .isFalse (fun h => Json.noConfusion h)
  | .null, .num _ => .isFalse (fun h => Json.noConfusion h)
  | .null, .str _ => .isFalse (fun h => Json.noConfusion h)
  | .null, .arr _ => .isFalse (fun h => Json.noConfusion h)
  | .null, .obj _ => .isFalse (fun h => Json.noConfusion h)
  | .bool _, .null => .isFalse (fun h => Json.noConfusion h)
  | .bool _, .num _ => .isFalse (fun h => Json.noConfusion h)
  | .bool _, .str _ => .isFalse (fun h => Json.noConfusion h)
  | .bool _, .arr _ => .isFalse (fun h => Json.noConfusion h)
  | .bool _, .obj _ => .isFalse (fun h => Json.noConfusion h)
  | .num _, .null => .isFalse (fun h => Json.noConfusion h)
  | .num _, .bool _ => .isFalse (fun h => Json.noConfusion h)
  | .num _, .str _ => .isFalse (fun h => Json.noConfusion h)
  | .num _, .arr _ => .isFalse (fun h => Json.noConfusion h)
  | .num _, .obj _ => .isFalse (fun h => Json.noConfusion h)
  | .str _, .null => .isFalse (fun h => Json.noConfusion h)
  | .str _, .bool _ => .isFalse (fun h => Json.noConfusion h)
  | .str _, .num _ => .isFalse (fun h => Json.noConfusion h)
  | .str _, .arr _ => .isFalse (fun h => Json.noConfusion h)
  | .str _, .obj _ => .isFalse (fun h => Json.noConfusion h)
  | .arr _, .null => .isFalse (fun h => Json.noConfusion h)
  | .arr _, .bool _ => .isFalse (fun h => Json.noConfusion h)
  | .arr _, .num _ => .isFalse (fun h => Json.noConfusion h)
  | .arr _, .str _ => .isFalse (fun h => Json.noConfusion h)
  | .arr _, .obj _ => .isFalse (fun h => Json.noConfusion h)
  | .obj _, .null => .isFalse (fun h => Json.noConfusion h)
  | .obj _, .bool _ => .isFalse (fun h => Json.noConfusion h)
  | .obj _, .num _ => .isFalse (fun h => Json.noConfusion h)
  | .obj _, .str _ => .isFalse (fun h => Json.noConfusion h)
  | .obj _, .arr _ => .isFalse (fun h => Json.noConfusion h)

def Json.decEqList : (xs ys : List Json) → Decidable (xs = ys)
  | [], [] => .isTrue rfl
  | [], _ :: _ => .isFalse (fun h => List.noConfusion h)
  | _ :: _, [] => .isFalse (fun h => List.noConfusion h)
  | x :: xs, y :: ys =>
      match Json.decEq x y with
      | .isFalse h => .isFalse (fun he => h (by injection he))
      | .isTrue h1 =>
          match Json.decEqList xs ys with
          | .isTrue h2 => .isTrue (by rw [h1, h2])
          | .isFalse h2 => .isFalse (fun he => h2 (by injection he))

def Json.decEqObj : (xs ys : List (String × Json)) → Decidable (xs = ys)
  | [], [] => .isTrue rfl
  | [], _ :: _ => .isFalse (fun h => List.noConfusion h)
  | _ :: _, [] => .isFalse (fun h => List.noConfusion h)
  | (k, v) :: xs, (k2, v2) :: ys =>
      if hk : k = k2 then
        match Json.decEq v v2 with
        | .isFalse h => .isFalse (fun he => by
            injection he with h1 h2
            exact h (congrArg Prod.snd h1))
        | .isTrue hv =>
            match Json.decEqObj xs ys with
            | .isTrue h2 => .isTrue (by rw [hk, hv, h2])
            | .isFalse h2 => .isFalse (fun he => h2 (by injection he))
      else
        .isFalse (fun he => hk (by
          injection he with h1 h2
          exact congrArg Prod.fst h1))

end

instance : DecidableEq Json := Json.decEq

/-- Python truthiness of a JSON value: `None`, `False`, `0`, `""`, `[]` and
`\x7b\x7d` are falsy, everything else truthy. -/
def truthy : Json → Bool
  | .null => false
  | .bool b => b
  | .num n => n != 0
  | .str s => s ≠ ""
  | .arr xs => !xs.isEmpty
  | .obj kvs => !kvs.isEmpty

/-- Truthiness of an optional JSON value (`dict.get` returning `None` is falsy). -/
def truthyOpt : Option Json → Bool
  | some v => truthy v
  | none => false

/-- The entry list of a Python dict. -/
abbrev Dict := List (String × Json)

/-- `d.get(k)`: first entry with the given key. -/
def getKey (d : Dict) (k : String) : Option Json :=
  (d.find? (fun p => p.1 = k)).map (fun p => p.2)

/-- `k in d`. -/
def hasKey (d : Dict) (k : String) : Bool :=
  (d.find? (fun p => p.1 = k)).isSome

/-- `d[k] = v`: replace the value at the key if present, else append the entry
(Python dicts keep insertion order). -/
def setKey (d : Dict) (k : String) (v : Json) : Dict :=
  if hasKey d k then d.map (fun p => if p.1 = k then (k, v) else p)
  else d ++ [(k, v)]

mutual

/-- Python `str()` of a parsed JSON value, used only to feed the MD5 digest of
the AOI coordinate list (`str(order_request.coordinates)`). -/
def pyStr : Json → String
  | .null => "None"
  | .bool b => if b then "True" else "False"
  | .num n => toString n
  | .str s => String.singleton '\'' ++ s ++ String.singleton '\''
  | .arr xs => "[" ++ String.intercalate ", " (pyStrList xs) ++ "]"
  | .obj kvs =>
      "\x7b" ++ String.intercalate ", " (pyStrObj kvs) ++ "\x7d"

def pyStrList : List Json → List String
  | [] => []
  | x :: xs => pyStr x :: pyStrList xs

def pyStrObj : List (String × Json) → List String
  | [] => []
  | (k, v) :: xs => (String.singleton '\'' ++ k ++ String.singleton '\'' ++ ": " ++ pyStr v) :: pyStrObj xs

end

/-! ## Enumerations from `__init__.py` -/

/-- `ProductBundle`: product bundles for Planet and Airbus optical data. -/
inductive ProductBundle where
  | general_use | visual | basic | analytic
deriving DecidableEq

def ProductBundle.value : ProductBundle → String
  | .general_use => "General use"
  | .visual => "Visual"
  | .basic => "Basic"
  | .analytic => "Analytic"

/-- `ProductBundleRadar`: product bundles for Airbus SAR data. -/
inductive ProductBundleRadar where
  | SSC | MGD | GEC | EEC
deriving DecidableEq

def ProductBundleRadar.value : ProductBundleRadar → String
  | .SSC => "SSC"
  | .MGD => "MGD"
  | .GEC => "GEC"
  | .EEC => "EEC"

/-- `LicenceRadar`: licence types for Airbus SAR data. -/
inductive LicenceRadar where
  | SINGLE | MULTI_2_5 | MULTI_6_30
deriving DecidableEq

def LicenceRadar.value : LicenceRadar → String
  | .SINGLE => "Single User Licence"
  | .MULTI_2_5 => "Multi User (2 - 5) Licence"
  | .MULTI_6_30 => "Multi User (6 - 30) Licence"

def LicenceRadar.airbus_value : LicenceRadar → String
  | .SINGLE => "Single User License"
  | .MULTI_2_5 => "Multi User (2 - 5) License"
  | .MULTI_6_30 => "Multi User (6 - 30) License"

/-- `LicenceOptical`: licence types for Airbus optical data. -/
inductive LicenceOptical where
  | STANDARD | BACKGROUND | STANDARD_BACKGROUND | ACADEMIC | MEDIA
  | STANDARD_MULTI_2_5 | STANDARD_MULTI_6_10 | STANDARD_MULTI_11_30 | STANDARD_MULTI_30
deriving DecidableEq

def LicenceOptical.value : LicenceOptical → String
  | .STANDARD => "Standard"
  | .BACKGROUND => "Background Layer"
  | .STANDARD_BACKGROUND => "Standard + Background Layer"
  | .ACADEMIC => "Academic"
  | .MEDIA => "Media Licence"
  | .STANDARD_MULTI_2_5 => "Standard Multi End-Users (2-5)"
  | .STANDARD_MULTI_6_10 => "Standard Multi End-Users (6-10)"
  | .STANDARD_MULTI_11_30 => "Standard Multi End-Users (11-30)"
  | .STANDARD_MULTI_30 => "Standard Multi End-Users (>30)"

def LicenceOptical.airbus_value : LicenceOptical → String
  | .STANDARD => "standard"
  | .BACKGROUND => "background_layer"
  | .STANDARD_BACKGROUND => "stand_background_layer"
  | .ACADEMIC => "educ"
  | .MEDIA => "media"
  | .STANDARD_MULTI_2_5 => "standard_1_5"
  | .STANDARD_MULTI_6_10 => "standard_6_10"
  | .STANDARD_MULTI_11_30 => "standard_11_30"
  | .STANDARD_MULTI_30 => "standard_up_30"

/-- `Orbit`: orbit types for Airbus SAR data. -/
inductive Orbit where
  | RAPID | SCIENCE
deriving DecidableEq

def Orbit.value : Orbit → String
  | .RAPID => "rapid"
  | .SCIENCE => "science"

/-- `ResolutionVariant`: resolution variants for Airbus SAR data. -/
inductive ResolutionVariant where
  | RE | SE
deriving DecidableEq

def ResolutionVariant.value : ResolutionVariant → String
  | .RE => "RE"
  | .SE => "SE"

/-- `Projection`: projection types for Airbus SAR data. -/
inductive Projection where
  | AUTO | UTM | UPS
deriving DecidableEq

def Projection.value : Projection → String
  | .AUTO => "Auto"
  | .UTM => "UTM"
  | .UPS => "UPS"

def Projection.airbus_value : Projection → String
  | .AUTO => "auto"
  | .UTM => "UTM"
  | .UPS => "UPS"

/-- `RadarOptions`: radar options for Airbus SAR data (pydantic model; `orbit`
is a required field, so it is always present on a parsed request). -/
structure RadarOptions where
  orbit : Orbit
  resolutionVariant : Option ResolutionVariant := none
  projection : Option Projection := none
deriving DecidableEq

/-- `RadarOptions.model_dump`: the dict of the non-`None` fields, in declaration
order, with `projection` mapped to its Airbus API value. -/
def RadarOptions.model_dump (o : RadarOptions) : Dict :=
  [("orbit", .str o.orbit.value)]
  ++ (match o.resolutionVariant with
      | some rv => [("resolutionVariant", .str rv.value)]
      | none => [])
  ++ (match o.projection with
      | some p => [("projection", .str p.airbus_value)]
      | none => [])

/-- `OrderableCatalogue`: catalogues for ordering commercial data. -/
inductive OrderableCatalogue where
  | planet | airbus
deriving DecidableEq

def OrderableCatalogue.value : OrderableCatalogue → String
  | .planet => "planet"
  | .airbus => "airbus"

/-- `OrderableCollection`: the Airbus collections and the Planet collections
from the default `PLANET_COLLECTIONS` configuration (`PSScene,SkySatCollect`). -/
inductive OrderableCollection where
  | sar | pneo | phr | spot | psscene | skysatcollect
deriving DecidableEq

def OrderableCollection.value : OrderableCollection → String
  | .sar => "airbus_sar_data"
  | .pneo => "airbus_pneo_data"
  | .phr => "airbus_phr_data"
  | .spot => "airbus_spot_data"
  | .psscene => "PSScene"
  | .skysatcollect => "SkySatCollect"

/-- The value set of `OrderableAirbusCollection`. -/
def airbusCollectionValues : List String :=
  ["airbus_sar_data", "airbus_pneo_data", "airbus_phr_data", "airbus_spot_data"]

/-- The Airbus optical collection values (every Airbus collection except SAR),
as computed in `order_item`. -/
def opticalCollectionValues : List String :=
  ["airbus_pneo_data", "airbus_phr_data", "airbus_spot_data"]

/-- A validated licence: either a radar or an optical licence member (the
return type of `validate_licence`). -/
inductive Licence where
  | radar (l : LicenceRadar)
  | optical (l : LicenceOptical)
deriving DecidableEq

def Licence.value : Licence → String
  | .radar l => l.value
  | .optical l => l.value

def Licence.airbus_value : Licence → String
  | .radar l => l.airbus_value
  | .optical l => l.airbus_value

/-- A product bundle from either family (`Union[ProductBundle, ProductBundleRadar]`). -/
inductive Bundle where
  | optical (b : ProductBundle)
  | radar (b : ProductBundleRadar)
deriving DecidableEq

def Bundle.value : Bundle → String
  | .optical b => b.value
  | .radar b => b.value

/-! ## Errors and validators -/

/-- An error outcome of the pipeline: either a raised `HTTPException`, or an
uncaught Python exception (`ValueError`, `TypeError`, or a `requests` error
from `raise_for_status`). -/
inductive PipelineError where
  | httpException (status : Nat) (detail : String)
  | valueError (msg : String)
  | typeError (msg : String)
  | requestError (msg : String)
deriving DecidableEq

/-- The HTTP status a raised error surfaces as: an `HTTPException` carries its
own status; FastAPI converts any other uncaught exception into a plain
500 Internal Server Error response. -/
def PipelineError.httpStatus : PipelineError → Nat
  | .httpException s _ => s
  | .valueError _ => 500
  | .typeError _ => 500
  | .requestError _ => 500

def licenceRadarValues : List String :=
  ["Single User Licence", "Multi User (2 - 5) Licence", "Multi User (6 - 30) Licence"]

def licenceOpticalValues : List String :=
  ["Standard", "Background Layer", "Standard + Background Layer", "Academic",
   "Media Licence", "Standard Multi End-Users (2-5)", "Standard Multi End-Users (6-10)",
   "Standard Multi End-Users (11-30)", "Standard Multi End-Users (>30)"]

def LicenceRadar.fromValue? (s : String) : Option LicenceRadar :=
  [LicenceRadar.SINGLE, .MULTI_2_5, .MULTI_6_30].find? (fun l => l.value = s)

def LicenceOptical.fromValue? (s : String) : Option LicenceOptical :=
  [LicenceOptical.STANDARD, .BACKGROUND, .STANDARD_BACKGROUND, .ACADEMIC, .MEDIA,
   .STANDARD_MULTI_2_5, .STANDARD_MULTI_6_10, .STANDARD_MULTI_11_30,
   .STANDARD_MULTI_30].find? (fun l => l.value = s)

def ProductBundle.fromValue? (s : String) : Option ProductBundle :=
  [ProductBundle.general_use, .visual, .basic, .analytic].find? (fun b => b.value = s)

def ProductBundleRadar.fromValue? (s : String) : Option ProductBundleRadar :=
  [ProductBundleRadar.SSC, .MGD, .GEC, .EEC].find? (fun b => b.value = s)

/-- `validate_licence(collection, licence)`: for the SAR collection the licence
is required and must be a radar licence value; for the other Airbus collections
it is required and must be an optical licence value; for any other collection
the result is `None`. The licence argument is the wire value of the parsed
request field (or `None`). -/
def validate_licence (collection : String) (licence : Option String) :
    Except PipelineError (Option Licence) :=
  if collection = "airbus_sar_data" then
    match licence with
    | none =>
        .error (.httpException 400
          ("Licence is required for a radar item. Valid licences are: " ++
            String.intercalate ", " licenceRadarValues))
    | some l =>
        if l ∈ licenceRadarValues then
          .ok ((LicenceRadar.fromValue? l).map Licence.radar)
        else
          .error (.httpException 400
            ("Invalid licence for a radar item. Valid licences are: " ++
              String.intercalate ", " licenceRadarValues))
  else if collection ∈ airbusCollectionValues then
    match licence with
    | none =>
        .error (.httpException 400
          ("Licence is required for an optical item. Valid licences are: " ++
            String.intercalate ", " licenceOpticalValues))
    | some l =>
        if l ∈ licenceOpticalValues then
          .ok ((LicenceOptical.fromValue? l).map Licence.optical)
        else
          .error (.httpException 400
            ("Invalid licence for an optical item. Valid licences are: " ++
              String.intercalate ", " licenceOpticalValues))
  else .ok none

/-- `validate_product_bundle(collection, product_bundle)`: radar collection
requires a radar bundle value, every other collection a general optical bundle
value. The bundle argument is the wire value of the parsed request field. -/
def validate_product_bundle (collection : String) (product_bundle : String) :
    Except PipelineError Bundle :=
  if collection = "airbus_sar_data" then
    match ProductBundleRadar.fromValue? product_bundle with
    | some b => .ok (.radar b)
    | none =>
        .error (.httpException 400
          ("Invalid product bundle for a radar item. Valid bundles are: SSC, MGD, GEC, EEC"))
  else
    match ProductBundle.fromValue? product_bundle with
    | some b => .ok (.optical b)
    | none =>
        .error (.httpException 400
          ("Invalid product bundle. Valid bundles are: General use, Visual, Basic, Analytic"))

/-- `validate_radar_options(collection, radar_options, product_bundle)`:
only meaningful for the SAR collection (`None` otherwise); `radarOptions` must
be supplied; `resolutionVariant` is required exactly when the bundle is not SSC
and forbidden for SSC; `projection` is required exactly when the bundle is not
SSC or MGD and forbidden for SSC and MGD.  The `orbit` sub-field is a required
enum member of the pydantic model, so the `if not radar_options.orbit` check of
the source can never fire and has no counterpart here.  On success the result
is the `model_dump` dict of the options with `product_type` set to the bundle
value. -/
def validate_radar_options (collection : String) (radar_options : Option RadarOptions)
    (product_bundle : String) : Except PipelineError (Option Dict) :=
  if collection ≠ "airbus_sar_data" then .ok none
  else
    match radar_options with
    | none => .error (.httpException 400 "Radar options missing for a radar item.")
    | some ro =>
      if product_bundle ≠ "SSC" ∧ ro.resolutionVariant = none then
        .error (.httpException 400
          "Resolution variant is required for a radar item when the product bundle is not SSC.")
      else if product_bundle = "SSC" ∧ ro.resolutionVariant ≠ none then
        .error (.httpException 400
          "Resolution variant should not be provided for a radar item when the product bundle is SSC.")
      else if product_bundle ∉ ["SSC", "MGD"] ∧ ro.projection = none then
        .error (.httpException 400
          "Projection is required for a radar item when the product bundle is not SSC or MGD.")
      else if product_bundle ∈ ["SSC", "MGD"] ∧ ro.projection ≠ none then
        .error (.httpException 400
          "Projection should not be provided for a radar item when the product bundle is SSC or MGD.")
      else
        .ok (some (setKey ro.model_dump "product_type" (.str product_bundle)))

/-! ## Tag derivation (`order_item`, the block building `tag`) -/

/-- One `if piece := radar_options.get(key): tag += "-" + piece` step of the tag
derivation (the walrus test is Python truthiness; validated radar option values
are always non-empty strings). -/
def tagPiece (tag : String) (v : Option Json) : String :=
  match v with
  | some (.str s) => if s = "" then tag else tag ++ "-" ++ s
  | _ => tag

/-- The tag derivation of `order_item`: concatenate the product bundle value
(an enum member, always truthy), then the orbit, resolution variant and
projection entries of the validated radar-options dict when present, then the
MD5 hex digest of `str(order_request.coordinates)` when coordinates were
supplied; finally replace the leading hyphen with an underscore
(`tag = "_" + tag[1:]`). -/
def deriveTag (bundleValue : String) (radar_options : Option Dict)
    (coordinates : Option (List Json)) (md5hex : String → String) : String :=
  let tag := "" ++ "-" ++ bundleValue
  let tag :=
    match radar_options with
    | none => tag
    | some ro =>
        let tag := tagPiece tag (getKey ro "orbit")
        let tag := tagPiece tag (getKey ro "resolutionVariant")
        tagPiece tag (getKey ro "projection")
  let tag :=
    match coordinates with
    | some coords => tag ++ "-" ++ md5hex (pyStr (.arr coords))
    | none => tag
  "_" ++ String.mk tag.data.tail

/-! ## STAC documents and the Order-State Encoder (`utils.update_stac_order_status`) -/

/-- A STAC JSON document, presented as its top-level dict with the fields the
pipeline touches split out: `id` (a string when present), `properties` (an
object when present), `geometry`, `assets`, `links` (an array when present),
`stac_extensions` (an array when present), and `extra` holding every other
top-level entry (`description`, `type`, `stac_version`, ...). -/
structure StacDoc where
  id : Option String := none
  properties : Option Dict := none
  geometry : Option Json := none
  assets : Option Json := none
  links : Option (List Json) := none
  stac_extensions : Option (List Json) := none
  extra : Dict := []
deriving DecidableEq

/-- The STAC Order extension schema URL. -/
def orderExtensionUrl : String := "https://stac-extensions.github.io/order/v1.1.0/schema.json"

/-- `update_stac_order_status(stac_item, order_id, order_status)`: create
`properties` if absent; set `properties["order:id"]` when an order id is given;
set `properties["order:status"]`; create `stac_extensions` if absent and append
the Order extension URL unless it is already present. -/
def update_stac_order_status (doc : StacDoc) (order_id : Option String)
    (order_status : String) : StacDoc :=
  let props := doc.properties.getD []
  let props :=
    match order_id with
    | some oid => setKey props "order:id" (.str oid)
    | none => props
  let props := setKey props "order:status" (.str order_status)
  let exts := doc.stac_extensions.getD []
  let exts := if Json.str orderExtensionUrl ∈ exts then exts
              else exts ++ [.str orderExtensionUrl]
  { doc with properties := some props, stac_extensions := some exts }

/-! ## Environment, effects, configuration -/

/-- Observable side effects of one pipeline run, in order of occurrence. -/
inductive Effect where
  | httpGet (url : String)
  | blobWrite (bucket : String) (key : String) (body : StacDoc)
  | executorPost (url : String)
  | pulsarSend (msg : Dict)
deriving DecidableEq

def Effect.isBlobWrite : Effect → Bool
  | .blobWrite _ _ _ => true
  | _ => false

def Effect.isExecutorPost : Effect → Bool
  | .executorPost _ => true
  | _ => false

def Effect.isPulsarSend : Effect → Bool
  | .pulsarSend _ => true
  | _ => false

def Effect.isGetOf (url : String) : Effect → Bool
  | .httpGet u => u = url
  | _ => false

/-- Environment defaults from the module configuration. -/
def s3Bucket : String := "test-bucket"

def eodhDomain : String := "dev.eodatahub.org.uk"

def pulsarUrl : String := "pulsar://pulsar-broker.pulsar:6650"

/-- `ADES_URL` has no default in the source; `os.getenv` yields `None`, which
an f-string renders as the text `None`. -/
def adesUrl : String := "None"

/-- The external world as the pipeline observes it: the authenticated user, the
resolved workspace, the request URL, the wall clock, the MD5 digest, the JSON
documents returned by the HTTP fetches, the shapely intersection, the Airbus
country list and the executor response. Fetches that raise
(`requests.get` failures, `raise_for_status` on a non-2xx) are `Except.error`. -/
structure Env where
  username : String
  workspace : String
  authorization : String
  orderUrl : String
  now : String
  md5hex : String → String
  locationDoc : StacDoc
  itemResp : Except String StacDoc
  collectionResp : String → Except String StacDoc
  catalogResp : String → Except String StacDoc
  shapelyIntersection : Json → Json → Option Json
  countryCodes : List String
  adesResp : Except String Json

/-- `coordinates_intersection(image_geometry, aoi_geometry)`: the GeoJSON
mapping of the shapely intersection, or `[]` when the intersection is empty
(the shapely call itself is the out-of-scope geometry library; the environment
supplies its result, `none` meaning `intersection.is_empty`). -/
def coordinates_intersection (env : Env) (image_geometry aoi_geometry : Json) : Json :=
  match env.shapelyIntersection image_geometry aoi_geometry with
  | none => .arr []
  | some m => m

/-! ## STAC Hierarchy Uploader (`utils.upload_stac_hierarchy_for_order`) -/

/-- Python `str.capitalize()`: first character upper-cased, the rest lower-cased. -/
def pyCapitalize (s : String) : String :=
  match s.data with
  | [] => ""
  | c :: cs => String.mk (c.toUpper :: cs.map Char.toLower)

/-- How a JSON value renders inside an f-string (`str()`: strings unquoted). -/
def fStr : Json → String
  | .str s => s
  | v => pyStr v

/-- Resolve a URL from a links array: the `href` of the first link whose `rel`
matches; `None`-like results (no such link, no string `href`, empty `href`)
collapse to `none`, matching the `if not collection_url` falsiness test. -/
def findLinkHref (links : List Json) (rel : String) : Option String :=
  match links.find? (fun l =>
      match l with
      | .obj kvs => getKey kvs "rel" = some (.str rel)
      | _ => false) with
  | some (.obj kvs) =>
      match getKey kvs "href" with
      | some (.str s) => if s = "" then none else some s
      | _ => none
  | _ => none

/-- The in-memory mutation of the fetched source item performed by
`upload_stac_hierarchy_for_order` before any write: tag the id, set
`order:status` to `pending`, clear `assets`, attach `order_options`, compute
the title (the source looks up the key `product_bundle`, which the caller
never sets — it sets `productBundle2` — so no bundle suffix is ever appended;
`(Clipped)` is appended when coordinates are present), stamp `created` and
`updated`, and replace the geometry with the AOI intersection, raising
`ValueError` when the intersection is empty. -/
def mutate_item_for_order (env : Env) (item0 : StacDoc) (item_id tag : String)
    (order_options : Dict) : Except PipelineError StacDoc :=
  let d := { item0 with id := some (item0.id.getD "" ++ tag) }
  let d := update_stac_order_status d none "pending"
  let d := { d with assets := some (.obj []) }
  let d := { d with
    properties := some (setKey (d.properties.getD []) "order_options" (.obj order_options)) }
  let item_title := "Order: " ++ item_id
  let item_title :=
    match getKey order_options "product_bundle" with
    | some v => if truthy v then item_title ++ " - " ++ fStr v else item_title
    | none => item_title
  let item_title :=
    match getKey order_options "coordinates" with
    | some v => if truthy v then item_title ++ " (Clipped)" else item_title
    | none => item_title
  let d := { d with
    properties := some (setKey (setKey (setKey (d.properties.getD []) "title"
      (.str item_title)) "created" (.str env.now)) "updated" (.str env.now)) }
  let aoi := (getKey order_options "coordinates").getD (.arr [])
  if truthy aoi then
    let aoi_geometry := Json.obj [("type", .str "Polygon"), ("coordinates", aoi)]
    let image_geometry := d.geometry.getD (.obj [])
    if truthy image_geometry then
      let ig := coordinates_intersection env image_geometry aoi_geometry
      if truthy ig then .ok { d with geometry := some ig }
      else .error (.valueError "No intersection found between image geometry and AOI coordinates")
    else .ok { d with geometry := some aoi_geometry }
  else .ok d

/-- The tuple returned by `upload_stac_hierarchy_for_order`: the pre-existing
order status at the location URL, the transformed keys reported as added, the
reference item key, the transformed item key, and the (mutated or existing)
item document. -/
structure UploadResult where
  status : Option Json
  added_keys : List String
  item_key : String
  transformed_item_key : String
  item_data : StacDoc
deriving DecidableEq

/-- `upload_stac_hierarchy_for_order(base_item_url, catalog_id, collection_id,
item_id, workspace, order_options, bucket, tag, location_url)`: fetch the
document at the location URL and return immediately when its `order:status` is
already `succeeded` or `pending`; otherwise fetch the source item, mutate it
(`mutate_item_for_order`), resolve and fetch the parent collection
(`rel=collection`) and catalog (`rel=parent`), rewrite their descriptions,
strip all three `links`, and perform the six blob writes (three reference
keys, three transformed keys). -/
def upload_stac_hierarchy_for_order (env : Env)
    (base_item_url catalog_id collection_id item_id workspace : String)
    (order_options : Dict) (bucket tag location_url : String) :
    Except PipelineError UploadResult × List Effect :=
  let trace0 := [Effect.httpGet ("https://" ++ location_url)]
  let status := getKey (env.locationDoc.properties.getD []) "order:status"
  if status = some (.str "succeeded") ∨ status = some (.str "pending") then
    (.ok ⟨status, [], "", "", env.locationDoc⟩, trace0)
  else
    let collection_description :=
      "Order records for " ++ (pyCapitalize collection_id).replace "_" " " ++
      ", including completed purchases with their associated assets, as well as records of ongoing and failed orders."
    let catalog_description :=
      "Order records for " ++ pyCapitalize catalog_id ++
      ", including completed purchases with their associated assets, as well as records of ongoing and failed orders."
    let trace1 := trace0 ++ [Effect.httpGet base_item_url]
    match env.itemResp with
    | .error e => (.error (.requestError e), trace1)
    | .ok item0 =>
      match mutate_item_for_order env item0 item_id tag order_options with
      | .error e => (.error e, trace1)
      | .ok item1 =>
        match findLinkHref (item1.links.getD []) "collection" with
        | none => (.error (.valueError "Collection URL not found in item links"), trace1)
        | some collection_url =>
          let trace2 := trace1 ++ [Effect.httpGet collection_url]
          match env.collectionResp collection_url with
          | .error e => (.error (.requestError e), trace2)
          | .ok coll0 =>
            let coll1 := { coll0 with
              extra := setKey coll0.extra "description" (.str collection_description) }
            match findLinkHref (coll1.links.getD []) "parent" with
            | none => (.error (.valueError "Collection URL not found in item links"), trace2)
            | some catalog_url =>
              let trace3 := trace2 ++ [Effect.httpGet catalog_url]
              match env.catalogResp catalog_url with
              | .error e => (.error (.requestError e), trace3)
              | .ok cat0 =>
                let cat1 := { cat0 with
                  extra := setKey cat0.extra "description" (.str catalog_description),
                  links := some [] }
                let coll2 := { coll1 with links := some [] }
                let item2 := { item1 with links := some [] }
                let catalog_name := "commercial-data"
                let catalog_key :=
                  workspace ++ "/" ++ catalog_name ++ "/" ++ catalog_id ++ ".json"
                let collection_key :=
                  workspace ++ "/" ++ catalog_name ++ "/" ++ catalog_id ++ "/" ++
                  collection_id ++ ".json"
                let item_key :=
                  workspace ++ "/" ++ catalog_name ++ "/" ++ catalog_id ++ "/" ++
                  collection_id ++ "/" ++ item_id ++ tag ++ ".json"
                let tCat :=
                  "transformed/catalogs/user/catalogs/" ++ workspace ++ "/catalogs/" ++
                  catalog_name ++ "/catalogs/" ++ catalog_id ++ ".json"
                let tColl :=
                  "transformed/catalogs/user/catalogs/" ++ workspace ++ "/catalogs/" ++
                  catalog_name ++ "/catalogs/" ++ catalog_id ++ "/collections/" ++
                  collection_id ++ ".json"
                let tItem :=
                  "transformed/catalogs/user/catalogs/" ++ workspace ++ "/catalogs/" ++
                  catalog_name ++ "/catalogs/" ++ catalog_id ++ "/collections/" ++
                  collection_id ++ "/items/" ++ item_id ++ tag ++ ".json"
                (.ok ⟨status, [tCat, tColl, tItem], item_key, tItem, item2⟩,
                 trace3 ++
                  [Effect.blobWrite bucket catalog_key cat1,
                   Effect.blobWrite bucket collection_key coll2,
                   Effect.blobWrite bucket item_key item2,
                   Effect.blobWrite bucket tCat cat1,
                   Effect.blobWrite bucket tColl coll2,
                   Effect.blobWrite bucket tItem item2])

/-! ## The order pipeline endpoint (`order_item`) -/

/-- The parsed request body of the order endpoint (pydantic `OrderRequest`):
the `productBundle` and `licence` members are already validated enum members
when the request reaches the handler, so they are carried here in typed form;
`coordinates` defaults to the empty list. -/
structure OrderRequest where
  productBundle : Bundle
  coordinates : List Json := []
  endUserCountry : Option String := none
  licence : Option Licence := none
  radarOptions : Option RadarOptions := none
deriving DecidableEq

/-- The body of a returned response: a STAC document, or a detail message
(`JSONResponse(content=...detail...)`). -/
inductive RespBody where
  | doc (d : StacDoc)
  | detail (s : String)
deriving DecidableEq

/-- A response returned (not raised) by the handler, with the `Location` and
`Message` headers the pipeline sets. -/
structure HttpResponse where
  status : Nat
  body : RespBody
  location : Option String := none
  message : Option String := none
deriving DecidableEq

/-- The HTTP status of a pipeline outcome: returned responses carry their own
status, raised errors surface through `PipelineError.httpStatus`. -/
def outcomeStatus : Except PipelineError HttpResponse → Nat
  | .ok r => r.status
  | .error e => e.httpStatus

/-- Whether the second character list starts with the first. -/
def isPrefixList : List Char → List Char → Bool
  | [], _ => true
  | _ :: _, [] => false
  | a :: as, b :: bs => a = b && isPrefixList as bs

/-- The prefix of the haystack before the last occurrence of the separator,
or `none` when the separator does not occur. -/
def rsplitCore (sep : List Char) : List Char → Option (List Char)
  | [] => none
  | c :: cs =>
      match rsplitCore sep cs with
      | some rest => some (c :: rest)
      | none => if isPrefixList sep (c :: cs) then some [] else none

/-- `url.rsplit(sep, 1)[0]`: everything before the last occurrence of the
separator (the whole string when the separator does not occur). -/
def rsplitFirstPart (s sep : String) : String :=
  match rsplitCore sep.data s.data with
  | some pre => String.mk pre
  | none => s

/-- `execute_order_workflow` in `utils.py` declares 13 required parameters:
`provider_workspace`, `user_workspace`, `workflow_name`, `authorization`,
`stac_uri`, `commercial_data_bucket`, `workspace_bucket`, `pulsar_url`,
`product_bundle`, `coordinates`, `end_users`, `licence` and a trailing
config parameter for the cluster. -/
def executeOrderWorkflowParams : Nat := 13

/-- The call site in `order_item` passes 12 positional arguments
(`catalog.value`, `workspace`, `adaptor_name`, `authorization`, the item s3
URI, `commercial_data_bucket`, `S3_BUCKET`, `PULSAR_URL`,
`product_bundle_value`, `order_request.coordinates`, `end_users`, the licence
Airbus value) and omits the 13th, so the Python call raises `TypeError`
before any HTTP request is issued. -/
def orderItemExecutorArgs : Nat := 12

/-- The normalized AOI coordinates:
`coordinates = order_request.coordinates if order_request.coordinates else None`. -/
def normCoords (req : OrderRequest) : Option (List Json) :=
  if req.coordinates.isEmpty then none else some req.coordinates

/-- The canonical order-record URL (`location_url`). -/
def orderLocationUrl (workspace catalogValue collectionValue item tag : String) : String :=
  eodhDomain ++ "/api/catalogue/stac/catalogs/user/catalogs/" ++ workspace ++
  "/catalogs/commercial-data/catalogs/" ++ catalogValue ++ "/collections/" ++
  collectionValue ++ "/items/" ++ item ++ tag

/-- The `order_options` dict assembled by `order_item` (note the source sets
the key `productBundle2`, with a comment saying not to upload that line). -/
def orderOptionsDict (username : String) (endUserCountry : Option String)
    (licence : Option Licence) (bundleValue : String) (coords : Option (List Json))
    (ro : Option Dict) : Dict :=
  [("productBundle2", .str bundleValue),
   ("coordinates", match coords with | some c => .arr c | none => .null),
   ("endUser", .obj
     [("country", match endUserCountry with | some c => .str c | none => .null),
      ("endUserName", .str username)]),
   ("licence", match licence with | some l => .str l.airbus_value | none => .null)]
  ++ (match ro with
      | some d => [("radarOptions", .obj d)]
      | none => [])

/-- The `output_data` notification message published to Pulsar. -/
def outputDataDict (workspace : String) (added : List String) : Dict :=
  [("id", .str (workspace ++ "/order_item")),
   ("workspace", .str workspace),
   ("bucket_name", .str s3Bucket),
   ("added_keys", .arr (added.map Json.str)),
   ("updated_keys", .arr []),
   ("deleted_keys", .arr []),
   ("source", .str "/"),
   ("target", .str "/")]

/-- The end-user list preparation of `order_item`: for optical Airbus
collections start from the empty list and, when an end-user country code is
supplied (truthy), validate it against the Airbus country list (raising a 400)
and build the single-entry list; for all other collections the list is
`None`. -/
def end_users_for_order (env : Env) (collection : OrderableCollection)
    (req : OrderRequest) : Except PipelineError (Option (List Dict)) :=
  if collection.value ∈ opticalCollectionValues then
    match req.endUserCountry with
    | some cc =>
        if cc = "" then .ok (some [])
        else if cc ∈ env.countryCodes then
          .ok (some [[("endUserName", .str env.username), ("country", .str cc)]])
        else
          .error (.httpException 400
            ("End user country code " ++ cc ++ " is invalid. Valid codes are: " ++
              String.intercalate ", " env.countryCodes))
    | none => .ok (some [])
  else .ok none

/-- The remainder of `order_item` after the idempotency short-circuit check
(split out only so the Lean development can state lemmas about it; the source
is one function). -/
def orderItemAfterUpload (env : Env) (catalog : OrderableCatalogue)
    (collection : OrderableCollection) (req : OrderRequest)
    (location_url : String) (u : UploadResult)
    (trace : List Effect) : Except PipelineError HttpResponse × List Effect :=
  if collection.value = "airbus_pneo_data" ∧
      truthyOpt (getKey (u.item_data.properties.getD [])
        "composed_of_acquisition_identifiers") then
    (.ok { status := 500,
           body := .detail "Multi and Stereo orders are not currently supported" }, trace)
  else
  match end_users_for_order env collection req with
  | .error e => (.error e, trace)
  | .ok end_users =>
  if collection.value = "airbus_pneo_data" ∧ (end_users = none ∨ end_users = some []) then
    (.error (.httpException 400 "End users must be supplied for PNEO orders"), trace)
  else
  let output_data : Dict := outputDataDict env.workspace u.added_keys
  let adaptor_name :=
    if collection.value = "airbus_sar_data" then "airbus-sar-adaptor"
    else if collection.value ∈ opticalCollectionValues then "airbus-optical-adaptor"
    else "planet-adaptor"
  -- The executor call: `execute_order_workflow` requires 13 positional
  -- arguments but `order_item` passes only 12, so the call raises `TypeError`
  -- inside the `try` block without ever issuing the HTTP POST. The arity
  -- comparison keeps that Python behaviour visible in the model.
  let executorOutcome : Except PipelineError Json × List Effect :=
    if orderItemExecutorArgs = executeOrderWorkflowParams then
      match env.adesResp with
      | .ok j => (.ok j,
          [.executorPost (adesUrl ++ "/" ++ catalog.value ++ "/processes/" ++
            adaptor_name ++ "/execution")])
      | .error e => (.error (.requestError e),
          [.executorPost (adesUrl ++ "/" ++ catalog.value ++ "/processes/" ++
            adaptor_name ++ "/execution")])
    else
      (.error (.typeError
        "execute_order_workflow missing 1 required positional argument"), [])
  match executorOutcome with
  | (.ok _, tr2) =>
      (.ok { status := 201, body := .doc u.item_data, location := some location_url },
       trace ++ tr2 ++ [.pulsarSend output_data])
  | (.error _, tr2) =>
      let failedDoc := update_stac_order_status u.item_data none "failed"
      (.error (.httpException 500 "Error executing order workflow"),
       trace ++ tr2 ++
        [.blobWrite s3Bucket u.item_key failedDoc,
         .blobWrite s3Bucket u.transformed_item_key failedDoc,
         .pulsarSend output_data])

/-- `order_item(request, parent_catalog, catalog, collection, item,
order_request)`: validate the licence, product bundle and radar options;
derive the disambiguating tag; resolve the workspace; build the order options
and invoke `upload_stac_hierarchy_for_order`; short-circuit with 200 when the
existing record is `succeeded`/`pending`; reject composite PNEO acquisitions
with a 500 response; build the end-user list (validating the country code) and
require it for PNEO; then attempt the executor workflow inside the
`try`/`except`: on any exception mark the item `failed`, rewrite it at both
item keys, publish the notification and raise a generic 500; on success
publish the notification and return 201 with a `Location` header. -/
def order_item (env : Env) (catalog : OrderableCatalogue)
    (collection : OrderableCollection) (item : String) (req : OrderRequest) :
    Except PipelineError HttpResponse × List Effect :=
  match validate_licence collection.value (req.licence.map Licence.value) with
  | .error e => (.error e, [])
  | .ok licence =>
  match validate_product_bundle collection.value req.productBundle.value with
  | .error e => (.error e, [])
  | .ok product_bundle =>
  match validate_radar_options collection.value req.radarOptions product_bundle.value with
  | .error e => (.error e, [])
  | .ok radar_options =>
  let coordinates : Option (List Json) := normCoords req
  let tag := deriveTag product_bundle.value radar_options coordinates env.md5hex
  let workspace := env.workspace
  if workspace = "" then (.error (.httpException 404 ""), [])
  else
  let location_url := orderLocationUrl workspace catalog.value collection.value item tag
  let base_item_url := rsplitFirstPart env.orderUrl "/order"
  let order_options : Dict :=
    orderOptionsDict env.username req.endUserCountry licence product_bundle.value
      coordinates radar_options
  match upload_stac_hierarchy_for_order env base_item_url catalog.value
      collection.value item workspace order_options s3Bucket tag location_url with
  | (.error e, trace) => (.error e, trace)
  | (.ok u, trace) =>
  match u.status with
  | some (.str s) =>
    if s = "succeeded" ∨ s = "pending" then
      (.ok { status := 200, body := .doc u.item_data, location := some location_url,
             message := some ("Order not placed. Current item status is " ++ s) }, trace)
    else orderItemAfterUpload env catalog collection req location_url u trace
  | _ => orderItemAfterUpload env catalog collection req location_url u trace

/-! ## Dictionary lemmas -/

theorem getKey_nil (k : String) : getKey [] k = none := rfl

theorem getKey_map_set_ne (d : Dict) (k k2 : String) (v : Json) (h : k2 ≠ k) :
    getKey (d.map (fun p => if p.1 = k then (k, v) else p)) k2 = getKey d k2 := by
  induction d with
  | nil => rfl
  | cons p ps ih =>
    by_cases hp : p.1 = k
    · simp only [List.map_cons, if_pos hp, getKey]
      rw [List.find?_cons_of_neg _ (by simp [Ne.symm h]),
          List.find?_cons_of_neg _ (by simp [hp]; exact Ne.symm h)]
      exact ih
    · simp only [List.map_cons, if_neg hp, getKey]
      by_cases hq : p.1 = k2
      · rw [List.find?_cons_of_pos _ (by simp [hq]), List.find?_cons_of_pos _ (by simp [hq])]
      · rw [List.find?_cons_of_neg _ (by simp [hq]), List.find?_cons_of_neg _ (by simp [hq])]
        exact ih

theorem getKey_append_ne (d : Dict) (k k2 : String) (v : Json) (h : k2 ≠ k) :
    getKey (d ++ [(k, v)]) k2 = getKey d k2 := by
  induction d with
  | nil =>
    simp only [List.nil_append, getKey]
    rw [List.find?_cons_of_neg _ (by simp [Ne.symm h])]
  | cons p ps ih =>
    simp only [List.cons_append, getKey]
    by_cases hq : p.1 = k2
    · rw [List.find?_cons_of_pos _ (by simp [hq]), List.find?_cons_of_pos _ (by simp [hq])]
    · rw [List.find?_cons_of_neg _ (by simp [hq]), List.find?_cons_of_neg _ (by simp [hq])]
      exact ih

/-- Looking up a different key is unaffected by `setKey`. -/
theorem getKey_setKey_ne (d : Dict) (k k2 : String) (v : Json) (h : k2 ≠ k) :
    getKey (setKey d k v) k2 = getKey d k2 := by
  unfold setKey
  by_cases hk : hasKey d k
  · rw [if_pos hk]; exact getKey_map_set_ne d k k2 v h
  · rw [if_neg hk]; exact getKey_append_ne d k k2 v h

theorem getKey_map_set_self (d : Dict) (k : String) (v : Json) (h : hasKey d k) :
    getKey (d.map (fun p => if p.1 = k then (k, v) else p)) k = some v := by
  induction d with
  | nil => simp [hasKey, List.find?] at h
  | cons p ps ih =>
    by_cases hp : p.1 = k
    · simp only [List.map_cons, if_pos hp, getKey]
      rw [List.find?_cons_of_pos _ (by simp)]
      rfl
    · simp only [List.map_cons, if_neg hp, getKey]
      rw [List.find?_cons_of_neg _ (by simp [hp])]
      have hps : hasKey ps k := by
        simp only [hasKey] at h ⊢
        rwa [List.find?_cons_of_neg _ (by simp [hp])] at h
      exact ih hps

/-- Looking up the key just set yields the new value. -/
theorem getKey_setKey_self (d : Dict) (k : String) (v : Json) :
    getKey (setKey d k v) k = some v := by
  unfold setKey
  by_cases hk : hasKey d k
  · rw [if_pos hk]; exact getKey_map_set_self d k v hk
  · rw [if_neg hk]
    induction d with
    | nil =>
      simp only [List.nil_append, getKey]
      rw [List.find?_cons_of_pos _ (by simp)]
      rfl
    | cons p ps ih =>
      have hp : p.1 ≠ k := by
        intro hh
        apply hk
        simp only [hasKey]
        rw [List.find?_cons_of_pos _ (by simp [hh])]
        rfl
      have hps : ¬ hasKey ps k := by
        intro hh
        apply hk
        simp only [hasKey] at hh ⊢
        rw [List.find?_cons_of_neg _ (by simp [hp])]
        exact hh
      simp only [List.cons_append, getKey]
      rw [List.find?_cons_of_neg _ (by simp [hp])]
      exact ih hps

/-! ## Helper predicates for claim statements -/

/-- Whether a pipeline step rejected the request with an HTTP 400 validation
error. -/
def isError400 {a : Type} : Except PipelineError a → Bool
  | .error (.httpException 400 _) => true
  | _ => false

/-! ## Claim C10 -/

/-- C10: `update_stac_order_status` modifies only `properties["order:status"]`,
`properties["order:id"]` and `stac_extensions`: called with no order id, the
`id`, `geometry`, `assets`, `links` and all other top-level fields are
unchanged, the `order:id` property is unchanged, and so is every property
other than `order:status`. -/
theorem update_stac_order_status_frame (doc : StacDoc) (s : String) (k : String)
    (hk : k ≠ "order:status") :
    (update_stac_order_status doc none s).id = doc.id ∧
    (update_stac_order_status doc none s).geometry = doc.geometry ∧
    (update_stac_order_status doc none s).assets = doc.assets ∧
    (update_stac_order_status doc none s).links = doc.links ∧
    (update_stac_order_status doc none s).extra = doc.extra ∧
    getKey ((update_stac_order_status doc none s).properties.getD []) "order:id" =
      getKey (doc.properties.getD []) "order:id" ∧
    getKey ((update_stac_order_status doc none s).properties.getD []) k =
      getKey (doc.properties.getD []) k := by
  unfold update_stac_order_status
  refine ⟨rfl, rfl, rfl, rfl, rfl, ?_, ?_⟩
  · exact getKey_setKey_ne _ _ _ _ (by decide)
  · exact getKey_setKey_ne _ _ _ _ hk

/-- A concrete document for the C10 witness. -/
def frameWitnessDoc : StacDoc :=
  { id := some "doc-1",
    properties := some [("order:id", Json.str "old"), ("datetime", Json.str "2023")],
    geometry := some (.obj [("type", Json.str "Point")]) }

/-- Witness for C10 at a concrete document and a concrete other property. -/
theorem update_stac_order_status_frame_witness :
    (update_stac_order_status frameWitnessDoc none "succeeded").id = some "doc-1" ∧
    getKey ((update_stac_order_status frameWitnessDoc none "succeeded").properties.getD [])
        "datetime" =
      getKey (frameWitnessDoc.properties.getD []) "datetime" :=
  ⟨(update_stac_order_status_frame frameWitnessDoc "succeeded" "datetime" (by decide)).1,
   (update_stac_order_status_frame frameWitnessDoc "succeeded" "datetime"
      (by decide)).2.2.2.2.2.2⟩

/-! ## Claim C6 -/

/-- C6 (amended): for every STAC document whose `stac_extensions` does not
already list the Order extension URL more than once, applying
`update_stac_order_status` twice with the same status yields a
`stac_extensions` list containing the Order extension URL exactly once, and
sets `properties["order:status"]` to the given status.  (The original claim,
quantified over all documents, fails on a document already carrying the URL
twice; see the counterexample.) -/
theorem update_stac_order_status_ext_once (doc : StacDoc) (s : String)
    (h : (doc.stac_extensions.getD []).count (Json.str orderExtensionUrl) ≤ 1) :
    ((update_stac_order_status (update_stac_order_status doc none s) none s).stac_extensions.getD
      []).count (Json.str orderExtensionUrl) = 1 ∧
    getKey ((update_stac_order_status (update_stac_order_status doc none s)
      none s).properties.getD []) "order:status" = some (.str s) := by
  constructor
  · unfold update_stac_order_status
    simp only [Option.getD_some]
    by_cases hm : Json.str orderExtensionUrl ∈ doc.stac_extensions.getD []
    · rw [if_pos hm, if_pos hm]
      have h1 : 1 ≤ (doc.stac_extensions.getD []).count (Json.str orderExtensionUrl) :=
        List.one_le_count_iff.mpr hm
      omega
    · rw [if_neg hm]
      have hm2 : Json.str orderExtensionUrl ∈
          doc.stac_extensions.getD [] ++ [Json.str orderExtensionUrl] :=
        List.mem_append_right _ (List.mem_singleton.mpr rfl)
      rw [if_pos hm2, List.count_append]
      have h0 : (doc.stac_extensions.getD []).count (Json.str orderExtensionUrl) = 0 :=
        List.count_eq_zero.mpr hm
      simp [h0]
  · unfold update_stac_order_status
    simp only [Option.getD_some]
    exact getKey_setKey_self _ _ _

/-- Witness for C6 at a concrete document without the extension. -/
theorem update_stac_order_status_ext_once_witness :
    ((update_stac_order_status (update_stac_order_status
        { id := some "doc-2", stac_extensions := some [Json.str "https://other"] }
        none "pending") none "pending").stac_extensions.getD []).count
      (Json.str orderExtensionUrl) = 1 :=
  (update_stac_order_status_ext_once
    { id := some "doc-2", stac_extensions := some [Json.str "https://other"] }
    "pending" (by decide)).1

/-- Counterexample to C6 as stated: a document whose `stac_extensions` already
contains the Order extension URL twice still contains it twice after applying
the encoder twice, not exactly once. -/
theorem update_stac_order_status_dup_counterexample :
    ¬ (((update_stac_order_status (update_stac_order_status
        { stac_extensions := some [Json.str orderExtensionUrl, Json.str orderExtensionUrl] }
        none "pending") none "pending").stac_extensions.getD []).count
      (Json.str orderExtensionUrl) = 1) := by decide

/-! ## Claim C4 -/

/-- C4: for orders on the radar collection, `validate_radar_options` rejects
with a 400 validation error: a supplied `resolutionVariant` when the bundle is
SSC; a supplied `projection` when the bundle is SSC or MGD; a missing
`resolutionVariant` when the bundle is not SSC; and a missing `projection`
when the bundle is not SSC or MGD. -/
theorem validate_radar_options_mutual_exclusion (ro : RadarOptions) (b : ProductBundleRadar) :
    (b = .SSC → ro.resolutionVariant ≠ none →
      isError400 (validate_radar_options "airbus_sar_data" (some ro) b.value) = true) ∧
    ((b = .SSC ∨ b = .MGD) → ro.projection ≠ none →
      isError400 (validate_radar_options "airbus_sar_data" (some ro) b.value) = true) ∧
    (b ≠ .SSC → ro.resolutionVariant = none →
      isError400 (validate_radar_options "airbus_sar_data" (some ro) b.value) = true) ∧
    (¬ (b = .SSC ∨ b = .MGD) → ro.projection = none →
      isError400 (validate_radar_options "airbus_sar_data" (some ro) b.value) = true) := by
  obtain ⟨orbit, rv, proj⟩ := ro
  cases b <;> cases rv <;> cases proj <;>
    simp [validate_radar_options, isError400, ProductBundleRadar.value]

/-- Witness for C4: concrete rejected combinations in each direction. -/
theorem validate_radar_options_mutual_exclusion_witness :
    isError400 (validate_radar_options "airbus_sar_data"
      (some { orbit := .RAPID, resolutionVariant := some .RE }) "SSC") = true ∧
    isError400 (validate_radar_options "airbus_sar_data"
      (some { orbit := .RAPID, resolutionVariant := some .RE, projection := some .AUTO })
      "MGD") = true ∧
    isError400 (validate_radar_options "airbus_sar_data"
      (some { orbit := .RAPID }) "GEC") = true ∧
    isError400 (validate_radar_options "airbus_sar_data"
      (some { orbit := .RAPID, resolutionVariant := some .RE }) "EEC") = true :=
  ⟨(validate_radar_options_mutual_exclusion { orbit := .RAPID, resolutionVariant := some .RE }
      .SSC).1 rfl (by decide),
   (validate_radar_options_mutual_exclusion
      { orbit := .RAPID, resolutionVariant := some .RE, projection := some .AUTO }
      .MGD).2.1 (Or.inr rfl) (by decide),
   (validate_radar_options_mutual_exclusion { orbit := .RAPID }
      .GEC).2.2.1 (by decide) rfl,
   (validate_radar_options_mutual_exclusion { orbit := .RAPID, resolutionVariant := some .RE }
      .EEC).2.2.2 (by decide) rfl⟩

deriving instance DecidableEq for Except

/-! ## Concrete fixtures used by witnesses and counterexamples -/

/-- A fixed 32-hex-character digest standing in for `hashlib.md5(...).hexdigest()`. -/
def md5Fixture : String → String := fun _ => "0123456789abcdef0123456789abcdef"

/-- A source STAC item as fetched from the provider catalogue. -/
def sourceItemFixture : StacDoc :=
  { id := some "item-1",
    properties := some [("datetime", Json.str "2023-01-01T00:00:00Z")],
    geometry := some (.obj [("type", .str "Polygon"), ("coordinates", .arr [.num 1])]),
    assets := some (.obj [("thumbnail", .str "t.png")]),
    links := some [.obj [("rel", .str "collection"), ("href", .str "http://coll")]],
    extra := [("type", .str "Feature")] }

/-- The parent collection document (with a `rel=parent` link to the catalog). -/
def collectionDocFixture : StacDoc :=
  { id := some "coll-1",
    links := some [.obj [("rel", .str "parent"), ("href", .str "http://cat")]] }

/-- The parent catalog document. -/
def catalogDocFixture : StacDoc := { id := some "cat-1" }

/-- A concrete environment: a logged-in user with one workspace, reachable
source documents, no pre-existing order record, a non-empty intersection for
any AOI, and an executor that would accept the request. -/
def envFixture : Env :=
  { username := "test_user",
    workspace := "test_workspace",
    authorization := "Bearer tok",
    orderUrl := "https://x/items/item-1/order",
    now := "2025-01-01T00:00:00.000000Z",
    md5hex := md5Fixture,
    locationDoc := {},
    itemResp := .ok sourceItemFixture,
    collectionResp := fun _ => .ok collectionDocFixture,
    catalogResp := fun _ => .ok catalogDocFixture,
    shapelyIntersection := fun _ _ =>
      some (.obj [("type", .str "Polygon"), ("coordinates", .arr [.num 0])]),
    countryCodes := ["GB", "FR"],
    adesResp := .ok .null }

/-- The environment in which the stored order record at the location URL is
already `pending`. -/
def envPendingFixture : Env :=
  { envFixture with locationDoc := { properties := some [("order:status", Json.str "pending")] } }

/-- The valid radar order request of the end-to-end scenario:
productBundle GEC, Single User Licence, radarOptions rapid / RE / Auto. -/
def reqGecFixture : OrderRequest :=
  { productBundle := .radar .GEC,
    licence := some (.radar .SINGLE),
    radarOptions := some { orbit := .RAPID, resolutionVariant := some .RE,
                           projection := some .AUTO } }

/-- A valid optical order request with no end-user country code. -/
def reqOpticalFixture : OrderRequest :=
  { productBundle := .optical .general_use,
    licence := some (.optical .STANDARD) }

/-! ## The idempotency short-circuit -/

/-- The uploader short-circuits when the stored record is `succeeded` or
`pending`: it returns the existing document with no source fetch and no
write. -/
theorem upload_short (env : Env) (b c i iid w : String) (oo : Dict) (bk tag lu : String)
    (st : String)
    (hst : getKey (env.locationDoc.properties.getD []) "order:status" = some (.str st))
    (hs : st = "succeeded" ∨ st = "pending") :
    upload_stac_hierarchy_for_order env b c i iid w oo bk tag lu =
      (.ok ⟨some (.str st), [], "", "", env.locationDoc⟩,
       [Effect.httpGet ("https://" ++ lu)]) := by
  unfold upload_stac_hierarchy_for_order
  rw [hst]
  rcases hs with h | h <;> subst h <;> rw [if_pos] <;> simp

/-- C1: for every order request (passing validation, with a resolved
workspace) against an item whose stored order record at the location URL has
`order:status` `succeeded` or `pending`, the pipeline short-circuits: it
returns HTTP 200 (not 201) with the existing record, a `Message` header (and a
`Location` header), and the run performs zero blob writes, zero executor
invocations, and publishes no notification. -/
theorem order_idempotency_short_circuit
    (env : Env) (catalog : OrderableCatalogue) (collection : OrderableCollection)
    (item : String) (req : OrderRequest) (st : String)
    (hst : getKey (env.locationDoc.properties.getD []) "order:status" = some (.str st))
    (hs : st = "succeeded" ∨ st = "pending")
    (lic : Option Licence) (bun : Bundle) (ro : Option Dict)
    (h1 : validate_licence collection.value (req.licence.map Licence.value) = .ok lic)
    (h2 : validate_product_bundle collection.value req.productBundle.value = .ok bun)
    (h3 : validate_radar_options collection.value req.radarOptions bun.value = .ok ro)
    (hws : env.workspace ≠ "") :
    (∃ loc, (order_item env catalog collection item req).1 =
      .ok { status := 200, body := .doc env.locationDoc, location := some loc,
            message := some ("Order not placed. Current item status is " ++ st) }) ∧
    (order_item env catalog collection item req).2.filter Effect.isBlobWrite = [] ∧
    (order_item env catalog collection item req).2.filter Effect.isExecutorPost = [] ∧
    (order_item env catalog collection item req).2.filter Effect.isPulsarSend = [] := by
  unfold order_item
  simp only [h1, h2, h3]
  rw [if_neg hws]
  rw [upload_short env _ _ _ _ _ _ _ _ _ st hst hs]
  rcases hs with h | h <;> subst h <;>
    simp [Effect.isBlobWrite, Effect.isExecutorPost, Effect.isPulsarSend]

/-- Witness for C1: a valid radar order against a record that is already
`pending` returns 200 with the stored record and performs no side effects. -/
theorem order_idempotency_short_circuit_witness :
    (∃ loc, (order_item envPendingFixture .airbus .sar "item-1" reqGecFixture).1 =
      .ok { status := 200, body := .doc envPendingFixture.locationDoc, location := some loc,
            message := some ("Order not placed. Current item status is " ++ "pending") }) ∧
    (order_item envPendingFixture .airbus .sar "item-1" reqGecFixture).2.filter
      Effect.isBlobWrite = [] ∧
    (order_item envPendingFixture .airbus .sar "item-1" reqGecFixture).2.filter
      Effect.isExecutorPost = [] ∧
    (order_item envPendingFixture .airbus .sar "item-1" reqGecFixture).2.filter
      Effect.isPulsarSend = [] :=
  order_idempotency_short_circuit envPendingFixture .airbus .sar "item-1" reqGecFixture
    "pending" rfl (Or.inr rfl)
    (some (.radar .SINGLE)) (.radar .GEC)
    (some (setKey (RadarOptions.model_dump
      { orbit := .RAPID, resolutionVariant := some .RE, projection := some .AUTO })
      "product_type" (.str "GEC")))
    (by decide) (by decide) (by decide) (by decide)

/-! ## Side-effect purity of the rejection paths -/

/-- The uploader never invokes the executor and never publishes a
notification, on any path. -/
theorem upload_filter_pure (env : Env) (b c i iid w : String) (oo : Dict) (bk tag lu : String) :
    (upload_stac_hierarchy_for_order env b c i iid w oo bk tag lu).2.filter
      Effect.isExecutorPost = [] ∧
    (upload_stac_hierarchy_for_order env b c i iid w oo bk tag lu).2.filter
      Effect.isPulsarSend = [] := by
  unfold upload_stac_hierarchy_for_order
  by_cases hshort :
      getKey (env.locationDoc.properties.getD []) "order:status" = some (Json.str "succeeded") ∨
      getKey (env.locationDoc.properties.getD []) "order:status" = some (Json.str "pending")
  · rw [if_pos hshort]
    simp [Effect.isExecutorPost, Effect.isPulsarSend]
  · rw [if_neg hshort]
    refine ⟨?_, ?_⟩ <;> (repeat' split) <;>
      simp [Effect.isExecutorPost, Effect.isPulsarSend] <;> (repeat' split) <;>
      simp [Effect.isExecutorPost, Effect.isPulsarSend]

/-- After the short-circuit check, any 4xx rejection leaves the executor
uninvoked and the notification unpublished. -/
theorem afterUpload_4xx_pure (env : Env) (catalog : OrderableCatalogue)
    (collection : OrderableCollection) (req : OrderRequest) (lu : String)
    (u : UploadResult) (trace : List Effect) (s : Nat) (d : String)
    (htr1 : trace.filter Effect.isExecutorPost = [])
    (htr2 : trace.filter Effect.isPulsarSend = [])
    (hres : (orderItemAfterUpload env catalog collection req lu u trace).1 =
      .error (.httpException s d))
    (hlt : s < 500) :
    (orderItemAfterUpload env catalog collection req lu u trace).2.filter
      Effect.isExecutorPost = [] ∧
    (orderItemAfterUpload env catalog collection req lu u trace).2.filter
      Effect.isPulsarSend = [] := by
  unfold orderItemAfterUpload at hres ⊢
  by_cases hmulti : collection.value = "airbus_pneo_data" ∧
      truthyOpt (getKey (u.item_data.properties.getD []) "composed_of_acquisition_identifiers")
  · rw [if_pos hmulti] at hres
    simp at hres
  · rw [if_neg hmulti] at hres ⊢
    cases he : end_users_for_order env collection req with
    | error e =>
      simp only [he] at hres ⊢
      exact ⟨htr1, htr2⟩
    | ok eu =>
      simp only [he] at hres ⊢
      by_cases hpn : collection.value = "airbus_pneo_data" ∧ (eu = none ∨ eu = some [])
      · rw [if_pos hpn] at hres ⊢
        simp only [] at hres ⊢
        exact ⟨htr1, htr2⟩
      · rw [if_neg hpn] at hres
        simp [orderItemExecutorArgs, executeOrderWorkflowParams] at hres
        omega

/-- Every run of the pipeline that is rejected with a 4xx `HTTPException`
invokes no executor workflow and publishes no notification. -/
theorem order_4xx_pure (env : Env) (catalog : OrderableCatalogue)
    (collection : OrderableCollection) (item : String) (req : OrderRequest)
    (s : Nat) (d : String)
    (hres : (order_item env catalog collection item req).1 = .error (.httpException s d))
    (hlt : s < 500) :
    (order_item env catalog collection item req).2.filter Effect.isExecutorPost = [] ∧
    (order_item env catalog collection item req).2.filter Effect.isPulsarSend = [] := by
  unfold order_item at hres ⊢
  cases h1 : validate_licence collection.value (req.licence.map Licence.value) with
  | error e => simp only [h1] at hres ⊢; simp
  | ok lic =>
  simp only [h1] at hres ⊢
  cases h2 : validate_product_bundle collection.value req.productBundle.value with
  | error e => simp only [h2] at hres ⊢; simp
  | ok bun =>
  simp only [h2] at hres ⊢
  cases h3 : validate_radar_options collection.value req.radarOptions bun.value with
  | error e => simp only [h3] at hres ⊢; simp
  | ok ro =>
  simp only [h3] at hres ⊢
  by_cases hws : env.workspace = ""
  · rw [if_pos hws] at hres ⊢; simp
  · rw [if_neg hws] at hres ⊢
    cases hup : upload_stac_hierarchy_for_order env (rsplitFirstPart env.orderUrl "/order")
        catalog.value collection.value item env.workspace
        (orderOptionsDict env.username req.endUserCountry lic bun.value (normCoords req) ro)
        s3Bucket (deriveTag bun.value ro (normCoords req) env.md5hex)
        (orderLocationUrl env.workspace catalog.value collection.value item
          (deriveTag bun.value ro (normCoords req) env.md5hex)) with
    | mk ur trace =>
    have hpure := upload_filter_pure env (rsplitFirstPart env.orderUrl "/order")
        catalog.value collection.value item env.workspace
        (orderOptionsDict env.username req.endUserCountry lic bun.value (normCoords req) ro)
        s3Bucket (deriveTag bun.value ro (normCoords req) env.md5hex)
        (orderLocationUrl env.workspace catalog.value collection.value item
          (deriveTag bun.value ro (normCoords req) env.md5hex))
    rw [hup] at hres hpure
    cases ur with
    | error e =>
      simp only [] at hres hpure ⊢
      exact hpure
    | ok u =>
      simp only [] at hres hpure ⊢
      cases hst : u.status with
      | none =>
        simp only [hst] at hres ⊢
        exact afterUpload_4xx_pure env catalog collection req _ u trace s d
          hpure.1 hpure.2 hres hlt
      | some v =>
        cases v with
        | str sv =>
          simp only [hst] at hres ⊢
          by_cases hsv : sv = "succeeded" ∨ sv = "pending"
          · rw [if_pos hsv] at hres; simp at hres
          · rw [if_neg hsv] at hres ⊢
            exact afterUpload_4xx_pure env catalog collection req _ u trace s d
              hpure.1 hpure.2 hres hlt
        | null =>
          simp only [hst] at hres ⊢
          exact afterUpload_4xx_pure env catalog collection req _ u trace s d
            hpure.1 hpure.2 hres hlt
        | bool b =>
          simp only [hst] at hres ⊢
          exact afterUpload_4xx_pure env catalog collection req _ u trace s d
            hpure.1 hpure.2 hres hlt
        | num n =>
          simp only [hst] at hres ⊢
          exact afterUpload_4xx_pure env catalog collection req _ u trace s d
            hpure.1 hpure.2 hres hlt
        | arr xs =>
          simp only [hst] at hres ⊢
          exact afterUpload_4xx_pure env catalog collection req _ u trace s d
            hpure.1 hpure.2 hres hlt
        | obj kvs =>
          simp only [hst] at hres ⊢
          exact afterUpload_4xx_pure env catalog collection req _ u trace s d
            hpure.1 hpure.2 hres hlt

/-! ## Claim C2 -/

/-- A radar order request that omits the licence. -/
def reqNoLicenceFixture : OrderRequest :=
  { productBundle := .radar .GEC,
    radarOptions := some { orbit := .RAPID, resolutionVariant := some .RE,
                           projection := some .AUTO } }

/-- C2 (amended): the licence, product-bundle and radar-options validators
reject before any external call with side effects (the pipeline returns their
400 error with an empty effect trace), and every 4xx rejection of the pipeline
happens with no executor invocation and no notification publish.  However, the
PNEO end-user check runs only after the hierarchy upload, so its 400 response
can follow blob writes (see the counterexample), which refutes the claim that
every 4xx validation error precedes all side effects. -/
theorem order_validation_rejects_early :
    (∀ (env : Env) (catalog : OrderableCatalogue) (collection : OrderableCollection)
       (item : String) (req : OrderRequest) (e : PipelineError),
       validate_licence collection.value (req.licence.map Licence.value) = .error e →
       order_item env catalog collection item req = (.error e, [])) ∧
    (∀ (env : Env) (catalog : OrderableCatalogue) (collection : OrderableCollection)
       (item : String) (req : OrderRequest) (lic : Option Licence) (e : PipelineError),
       validate_licence collection.value (req.licence.map Licence.value) = .ok lic →
       validate_product_bundle collection.value req.productBundle.value = .error e →
       order_item env catalog collection item req = (.error e, [])) ∧
    (∀ (env : Env) (catalog : OrderableCatalogue) (collection : OrderableCollection)
       (item : String) (req : OrderRequest) (lic : Option Licence) (bun : Bundle)
       (e : PipelineError),
       validate_licence collection.value (req.licence.map Licence.value) = .ok lic →
       validate_product_bundle collection.value req.productBundle.value = .ok bun →
       validate_radar_options collection.value req.radarOptions bun.value = .error e →
       order_item env catalog collection item req = (.error e, [])) ∧
    (∀ (env : Env) (catalog : OrderableCatalogue) (collection : OrderableCollection)
       (item : String) (req : OrderRequest) (s : Nat) (d : String),
       (order_item env catalog collection item req).1 = .error (.httpException s d) →
       s < 500 →
       (order_item env catalog collection item req).2.filter Effect.isExecutorPost = [] ∧
       (order_item env catalog collection item req).2.filter Effect.isPulsarSend = []) := by
  refine ⟨?_, ?_, ?_, ?_⟩
  · intro env catalog collection item req e h
    unfold order_item
    simp only [h]
  · intro env catalog collection item req lic e h1 h2
    unfold order_item
    simp only [h1, h2]
  · intro env catalog collection item req lic bun e h1 h2 h3
    unfold order_item
    simp only [h1, h2, h3]
  · intro env catalog collection item req s d hres hlt
    exact order_4xx_pure env catalog collection item req s d hres hlt

/-- Witness for C2 (amended): a radar order without a licence is rejected
with an empty effect trace, and the PNEO 400 rejection publishes nothing and
invokes no executor. -/
theorem order_validation_rejects_early_witness :
    (order_item envFixture .airbus .sar "item-1" reqNoLicenceFixture).2 = [] ∧
    (order_item envFixture .airbus .pneo "item-1" reqOpticalFixture).2.filter
      Effect.isExecutorPost = [] ∧
    (order_item envFixture .airbus .pneo "item-1" reqOpticalFixture).2.filter
      Effect.isPulsarSend = [] :=
  ⟨congrArg Prod.snd
    (order_validation_rejects_early.1 envFixture .airbus .sar "item-1" reqNoLicenceFixture
      _ rfl),
   (order_validation_rejects_early.2.2.2 envFixture .airbus .pneo "item-1" reqOpticalFixture
      400 "End users must be supplied for PNEO orders" (by decide) (by decide)).1,
   (order_validation_rejects_early.2.2.2 envFixture .airbus .pneo "item-1" reqOpticalFixture
      400 "End users must be supplied for PNEO orders" (by decide) (by decide)).2⟩

/-- Counterexample to C2 as stated: ordering the PNEO collection without an
end-user country code does return 400 with the end-users-required message, but
only after six blob writes have occurred, so the validation error is not
raised before all external calls with side effects. -/
theorem order_pneo_end_user_after_writes_counterexample :
    (order_item envFixture .airbus .pneo "item-1" reqOpticalFixture).1 =
      .error (.httpException 400 "End users must be supplied for PNEO orders") ∧
    ¬ ((order_item envFixture .airbus .pneo "item-1" reqOpticalFixture).2.filter
      Effect.isBlobWrite = []) ∧
    ((order_item envFixture .airbus .pneo "item-1" reqOpticalFixture).2.filter
      Effect.isBlobWrite).length = 6 := by
  refine ⟨by decide, by decide, by decide⟩

/-! ## Reduction lemmas for the post-upload phase -/

/-- When validation succeeds and the uploader returns a freshly-uploaded
record (status not `succeeded`/`pending`), the pipeline continues with the
post-upload phase. -/
theorem order_item_to_afterUpload (env : Env) (catalog : OrderableCatalogue)
    (collection : OrderableCollection) (item : String) (req : OrderRequest)
    (lic : Option Licence) (bun : Bundle) (ro : Option Dict)
    (u : UploadResult) (trace : List Effect)
    (h1 : validate_licence collection.value (req.licence.map Licence.value) = .ok lic)
    (h2 : validate_product_bundle collection.value req.productBundle.value = .ok bun)
    (h3 : validate_radar_options collection.value req.radarOptions bun.value = .ok ro)
    (hws : env.workspace ≠ "")
    (hup : upload_stac_hierarchy_for_order env (rsplitFirstPart env.orderUrl "/order")
        catalog.value collection.value item env.workspace
        (orderOptionsDict env.username req.endUserCountry lic bun.value (normCoords req) ro)
        s3Bucket (deriveTag bun.value ro (normCoords req) env.md5hex)
        (orderLocationUrl env.workspace catalog.value collection.value item
          (deriveTag bun.value ro (normCoords req) env.md5hex)) = (.ok u, trace))
    (hn1 : u.status ≠ some (.str "succeeded"))
    (hn2 : u.status ≠ some (.str "pending")) :
    order_item env catalog collection item req =
      orderItemAfterUpload env catalog collection req
        (orderLocationUrl env.workspace catalog.value collection.value item
          (deriveTag bun.value ro (normCoords req) env.md5hex)) u trace := by
  unfold order_item
  simp only [h1, h2, h3]
  rw [if_neg hws]
  rw [hup]
  simp only []
  cases hst : u.status with
  | none => simp only []
  | some v =>
    cases v with
    | str sv =>
      have hcond : ¬ (sv = "succeeded" ∨ sv = "pending") := by
        rintro (h | h) <;> subst h
        · exact hn1 hst
        · exact hn2 hst
      simp only []
      rw [if_neg hcond]
    | null => simp only []
    | bool b => simp only []
    | num n => simp only []
    | arr xs => simp only []
    | obj kvs => simp only []

/-- The executor attempt always raises: the call to `execute_order_workflow`
omits its required 13th positional argument, so `TypeError` is raised inside
the `try` and the failure branch runs: the in-memory item is re-marked `failed`,
written at both item keys, the notification is published, and a generic 500
`HTTPException` is raised. -/
theorem afterUpload_executor_failure (env : Env) (catalog : OrderableCatalogue)
    (collection : OrderableCollection) (req : OrderRequest) (lu : String)
    (u : UploadResult) (trace : List Effect) (eu : Option (List Dict))
    (hm : ¬ (collection.value = "airbus_pneo_data" ∧
      truthyOpt (getKey (u.item_data.properties.getD [])
        "composed_of_acquisition_identifiers")))
    (he : end_users_for_order env collection req = .ok eu)
    (hp : ¬ (collection.value = "airbus_pneo_data" ∧ (eu = none ∨ eu = some []))) :
    orderItemAfterUpload env catalog collection req lu u trace =
      (.error (.httpException 500 "Error executing order workflow"),
       trace ++
        [.blobWrite s3Bucket u.item_key (update_stac_order_status u.item_data none "failed"),
         .blobWrite s3Bucket u.transformed_item_key
           (update_stac_order_status u.item_data none "failed"),
         .pulsarSend (outputDataDict env.workspace u.added_keys)]) := by
  unfold orderItemAfterUpload
  rw [if_neg hm]
  simp only [he]
  rw [if_neg hp]
  simp [orderItemExecutorArgs, executeOrderWorkflowParams]

/-- The uploader invocation exactly as `order_item` performs it (used to name
the upload result in concrete witnesses). -/
def uploadPairFor (env : Env) (catalog : OrderableCatalogue)
    (collection : OrderableCollection) (item : String) (req : OrderRequest)
    (lic : Option Licence) (bun : Bundle) (ro : Option Dict) :
    Except PipelineError UploadResult × List Effect :=
  upload_stac_hierarchy_for_order env (rsplitFirstPart env.orderUrl "/order")
    catalog.value collection.value item env.workspace
    (orderOptionsDict env.username req.endUserCountry lic bun.value (normCoords req) ro)
    s3Bucket (deriveTag bun.value ro (normCoords req) env.md5hex)
    (orderLocationUrl env.workspace catalog.value collection.value item
      (deriveTag bun.value ro (normCoords req) env.md5hex))

/-- The successful upload result of `uploadPairFor` (a default on the error
path, which the witnesses never hit). -/
def uploadResultFor (env : Env) (catalog : OrderableCatalogue)
    (collection : OrderableCollection) (item : String) (req : OrderRequest)
    (lic : Option Licence) (bun : Bundle) (ro : Option Dict) : UploadResult :=
  match (uploadPairFor env catalog collection item req lic bun ro).1 with
  | .ok u => u
  | .error _ => ⟨none, [], "", "", {}⟩

/-! ## Claim C3 -/

/-- C3 (amended): for every order whose executor attempt fails (and with the
call site passing 12 of the 13 required arguments of
`execute_order_workflow`, every executor attempt raises `TypeError`), the
pipeline rewrites the already-mutated in-memory order record — not a freshly
re-fetched source item — with `order:status` `failed` at both the reference
and transformed item keys, still publishes the notification event, and raises
a generic 500 without the underlying exception detail; the original source
item URL is not fetched again (the count of GETs of the base item URL is
unchanged from the upload phase). -/
theorem order_executor_failure_reconciliation (env : Env) (catalog : OrderableCatalogue)
    (collection : OrderableCollection) (item : String) (req : OrderRequest)
    (lic : Option Licence) (bun : Bundle) (ro : Option Dict)
    (u : UploadResult) (trace : List Effect) (eu : Option (List Dict))
    (h1 : validate_licence collection.value (req.licence.map Licence.value) = .ok lic)
    (h2 : validate_product_bundle collection.value req.productBundle.value = .ok bun)
    (h3 : validate_radar_options collection.value req.radarOptions bun.value = .ok ro)
    (hws : env.workspace ≠ "")
    (hup : upload_stac_hierarchy_for_order env (rsplitFirstPart env.orderUrl "/order")
        catalog.value collection.value item env.workspace
        (orderOptionsDict env.username req.endUserCountry lic bun.value (normCoords req) ro)
        s3Bucket (deriveTag bun.value ro (normCoords req) env.md5hex)
        (orderLocationUrl env.workspace catalog.value collection.value item
          (deriveTag bun.value ro (normCoords req) env.md5hex)) = (.ok u, trace))
    (hn1 : u.status ≠ some (.str "succeeded"))
    (hn2 : u.status ≠ some (.str "pending"))
    (hm : ¬ (collection.value = "airbus_pneo_data" ∧
      truthyOpt (getKey (u.item_data.properties.getD [])
        "composed_of_acquisition_identifiers")))
    (he : end_users_for_order env collection req = .ok eu)
    (hp : ¬ (collection.value = "airbus_pneo_data" ∧ (eu = none ∨ eu = some []))) :
    (order_item env catalog collection item req).1 =
      .error (.httpException 500 "Error executing order workflow") ∧
    (order_item env catalog collection item req).2 =
      trace ++
        [.blobWrite s3Bucket u.item_key (update_stac_order_status u.item_data none "failed"),
         .blobWrite s3Bucket u.transformed_item_key
           (update_stac_order_status u.item_data none "failed"),
         .pulsarSend (outputDataDict env.workspace u.added_keys)] ∧
    (order_item env catalog collection item req).2.countP
      (Effect.isGetOf (rsplitFirstPart env.orderUrl "/order")) =
      trace.countP (Effect.isGetOf (rsplitFirstPart env.orderUrl "/order")) := by
  have hred := order_item_to_afterUpload env catalog collection item req lic bun ro u trace
    h1 h2 h3 hws hup hn1 hn2
  have hfail := afterUpload_executor_failure env catalog collection req
    (orderLocationUrl env.workspace catalog.value collection.value item
      (deriveTag bun.value ro (normCoords req) env.md5hex)) u trace eu hm he hp
  rw [hred, hfail]
  refine ⟨rfl, rfl, ?_⟩
  simp [List.countP_append, Effect.isGetOf]

set_option maxRecDepth 20000 in
/-- Witness for C3 (amended): a valid SPOT order against a fresh item — the
executor attempt raises, the 500 is surfaced, and the source item URL is not
fetched a second time. -/
theorem order_executor_failure_reconciliation_witness :
    (order_item envFixture .airbus .spot "item-1" reqOpticalFixture).1 =
      .error (.httpException 500 "Error executing order workflow") ∧
    (order_item envFixture .airbus .spot "item-1" reqOpticalFixture).2.countP
      (Effect.isGetOf (rsplitFirstPart envFixture.orderUrl "/order")) =
      (uploadPairFor envFixture .airbus .spot "item-1" reqOpticalFixture
        (some (.optical .STANDARD)) (.optical .general_use) none).2.countP
        (Effect.isGetOf (rsplitFirstPart envFixture.orderUrl "/order")) :=
  ⟨(order_executor_failure_reconciliation envFixture .airbus .spot "item-1" reqOpticalFixture
      (some (.optical .STANDARD)) (.optical .general_use) none
      (uploadResultFor envFixture .airbus .spot "item-1" reqOpticalFixture
        (some (.optical .STANDARD)) (.optical .general_use) none)
      (uploadPairFor envFixture .airbus .spot "item-1" reqOpticalFixture
        (some (.optical .STANDARD)) (.optical .general_use) none).2
      (some []) (by decide) (by decide) (by decide) (by decide) rfl
      (by decide) (by decide) (by decide) (by decide) (by decide)).1,
   (order_executor_failure_reconciliation envFixture .airbus .spot "item-1" reqOpticalFixture
      (some (.optical .STANDARD)) (.optical .general_use) none
      (uploadResultFor envFixture .airbus .spot "item-1" reqOpticalFixture
        (some (.optical .STANDARD)) (.optical .general_use) none)
      (uploadPairFor envFixture .airbus .spot "item-1" reqOpticalFixture
        (some (.optical .STANDARD)) (.optical .general_use) none).2
      (some []) (by decide) (by decide) (by decide) (by decide) rfl
      (by decide) (by decide) (by decide) (by decide) (by decide)).2.2⟩

set_option maxRecDepth 20000 in
/-- Counterexample to C3 as stated: a valid radar order with a failing
executor attempt surfaces the generic 500 and rewrites the failed record, but
the base item URL is fetched exactly once in the whole run, so the pipeline
does not re-fetch the original source item before the `failed` rewrite. -/
theorem order_executor_failure_no_refetch_counterexample :
    (order_item envFixture .airbus .sar "item-1" reqGecFixture).1 =
      .error (.httpException 500 "Error executing order workflow") ∧
    ¬ (2 ≤ (order_item envFixture .airbus .sar "item-1" reqGecFixture).2.countP
      (Effect.isGetOf (rsplitFirstPart envFixture.orderUrl "/order"))) ∧
    (order_item envFixture .airbus .sar "item-1" reqGecFixture).2.countP
      (Effect.isGetOf (rsplitFirstPart envFixture.orderUrl "/order")) = 1 :=
  ⟨by decide, by decide, by decide⟩

/-! ## Claim C9 -/

/-- The source item marked as part of a multi/stereo-composed acquisition. -/
def compositeItemFixture : StacDoc :=
  { sourceItemFixture with
    properties := some [("composed_of_acquisition_identifiers", Json.arr [.str "a1", .str "a2"])] }

/-- The environment whose source item is a composite acquisition. -/
def envCompositeFixture : Env := { envFixture with itemResp := .ok compositeItemFixture }

/-- C9 (amended): only on the PNEO collection, an order whose uploaded source
item has a truthy `composed_of_acquisition_identifiers` property is answered
with a 500 response carrying the "Multi and Stereo orders are not currently
supported" message, with no executor invocation and no notification publish
(the upload-phase trace is returned unchanged).  On other collections the
check does not fire (see the counterexample). -/
theorem order_pneo_composite_rejection (env : Env) (catalog : OrderableCatalogue)
    (item : String) (req : OrderRequest)
    (lic : Option Licence) (bun : Bundle) (ro : Option Dict)
    (u : UploadResult) (trace : List Effect)
    (h1 : validate_licence OrderableCollection.pneo.value
      (req.licence.map Licence.value) = .ok lic)
    (h2 : validate_product_bundle OrderableCollection.pneo.value
      req.productBundle.value = .ok bun)
    (h3 : validate_radar_options OrderableCollection.pneo.value
      req.radarOptions bun.value = .ok ro)
    (hws : env.workspace ≠ "")
    (hup : upload_stac_hierarchy_for_order env (rsplitFirstPart env.orderUrl "/order")
        catalog.value OrderableCollection.pneo.value item env.workspace
        (orderOptionsDict env.username req.endUserCountry lic bun.value (normCoords req) ro)
        s3Bucket (deriveTag bun.value ro (normCoords req) env.md5hex)
        (orderLocationUrl env.workspace catalog.value OrderableCollection.pneo.value item
          (deriveTag bun.value ro (normCoords req) env.md5hex)) = (.ok u, trace))
    (hn1 : u.status ≠ some (.str "succeeded"))
    (hn2 : u.status ≠ some (.str "pending"))
    (hcomp : truthyOpt (getKey (u.item_data.properties.getD [])
      "composed_of_acquisition_identifiers") = true) :
    order_item env catalog .pneo item req =
      (.ok { status := 500,
             body := .detail "Multi and Stereo orders are not currently supported" },
       trace) ∧
    trace.filter Effect.isExecutorPost = [] ∧
    trace.filter Effect.isPulsarSend = [] := by
  have hpure := upload_filter_pure env (rsplitFirstPart env.orderUrl "/order")
    catalog.value OrderableCollection.pneo.value item env.workspace
    (orderOptionsDict env.username req.endUserCountry lic bun.value (normCoords req) ro)
    s3Bucket (deriveTag bun.value ro (normCoords req) env.md5hex)
    (orderLocationUrl env.workspace catalog.value OrderableCollection.pneo.value item
      (deriveTag bun.value ro (normCoords req) env.md5hex))
  rw [hup] at hpure
  refine ⟨?_, hpure.1, hpure.2⟩
  rw [order_item_to_afterUpload env catalog .pneo item req lic bun ro u trace
    h1 h2 h3 hws hup hn1 hn2]
  unfold orderItemAfterUpload
  rw [if_pos ⟨rfl, hcomp⟩]

set_option maxRecDepth 20000 in
/-- Witness for C9 (amended): a valid PNEO order for a composite acquisition
is answered with the multi/stereo 500 response and no further effects. -/
theorem order_pneo_composite_rejection_witness :
    order_item envCompositeFixture .airbus .pneo "item-1" reqOpticalFixture =
      (.ok { status := 500,
             body := .detail "Multi and Stereo orders are not currently supported" },
       (uploadPairFor envCompositeFixture .airbus .pneo "item-1" reqOpticalFixture
         (some (.optical .STANDARD)) (.optical .general_use) none).2) :=
  (order_pneo_composite_rejection envCompositeFixture .airbus "item-1" reqOpticalFixture
    (some (.optical .STANDARD)) (.optical .general_use) none
    (uploadResultFor envCompositeFixture .airbus .pneo "item-1" reqOpticalFixture
      (some (.optical .STANDARD)) (.optical .general_use) none)
    (uploadPairFor envCompositeFixture .airbus .pneo "item-1" reqOpticalFixture
      (some (.optical .STANDARD)) (.optical .general_use) none).2
    (by decide) (by decide) (by decide) (by decide) rfl (by decide)
    (by decide) (by decide)).1

set_option maxRecDepth 20000 in
/-- Counterexample to C9 as stated: on the SPOT collection, the same composite
source item is not rejected with the "not currently supported" message — the
pipeline proceeds past the check (it publishes the notification and ends in
the generic executor-failure 500 instead). -/
theorem order_composite_not_rejected_on_spot_counterexample :
    (order_item envCompositeFixture .airbus .spot "item-1" reqOpticalFixture).1 ≠
      .ok { status := 500,
            body := .detail "Multi and Stereo orders are not currently supported" } ∧
    (order_item envCompositeFixture .airbus .spot "item-1" reqOpticalFixture).1 =
      .error (.httpException 500 "Error executing order workflow") ∧
    ((order_item envCompositeFixture .airbus .spot "item-1" reqOpticalFixture).2.filter
      Effect.isPulsarSend).length = 1 :=
  ⟨by decide, by decide, by decide⟩

/-! ## Claim C8 -/

set_option maxRecDepth 20000 in
/-- C8: the end-to-end radar scenario (productBundle GEC, Single User
Licence, radarOptions rapid/RE/Auto, fresh valid source item, executor that
would accept).  The claim (matching the repository's own
`test_order_item_success_airbus_sar`) expects 201, one executor invocation and
six blob writes; but the call to `execute_order_workflow` passes 12 positional
arguments where the signature requires 13, so `TypeError` is raised inside the
`try` before any executor POST: the run ends with the generic 500, zero
executor invocations, and eight blob writes (six uploads plus the two
`failed` rewrites). -/
theorem order_valid_radar_hits_arity_bug :
    (order_item envFixture .airbus .sar "item-1" reqGecFixture).1 =
      .error (.httpException 500 "Error executing order workflow") ∧
    (order_item envFixture .airbus .sar "item-1" reqGecFixture).2.filter
      Effect.isExecutorPost = [] ∧
    ((order_item envFixture .airbus .sar "item-1" reqGecFixture).2.filter
      Effect.isBlobWrite).length = 8 ∧
    ¬ orderItemExecutorArgs = executeOrderWorkflowParams :=
  ⟨by decide, by decide, by decide, by decide⟩


/-- The order-state encoder leaves the geometry untouched. -/
theorem update_stac_order_status_geometry (doc : StacDoc) (oid : Option String)
    (s : String) : (update_stac_order_status doc oid s).geometry = doc.geometry := rfl

/-- The `coordinates` entry of the assembled order options. -/
theorem getKey_orderOptions_coords (username : String) (cc : Option String)
    (lic : Option Licence) (bv : String) (c : List Json) (ro : Option Dict) :
    getKey (orderOptionsDict username cc lic bv (some c) ro) "coordinates" =
      some (.arr c) := by
  unfold orderOptionsDict getKey
  simp only [List.cons_append, List.nil_append]
  rw [List.find?_cons_of_neg _ (by simp), List.find?_cons_of_pos _ (by simp)]
  rfl

/-- When AOI coordinates are supplied, the item geometry is truthy and the
shapely intersection is empty, the item mutation raises the no-intersection
`ValueError`. -/
theorem mutate_item_no_intersection (env : Env) (item0 : StacDoc)
    (item_id tag : String) (oo : Dict) (coords : List Json)
    (hc : getKey oo "coordinates" = some (.arr coords))
    (hne : coords ≠ [])
    (hg : truthy (item0.geometry.getD (.obj [])) = true)
    (hi : env.shapelyIntersection (item0.geometry.getD (.obj []))
        (.obj [("type", .str "Polygon"), ("coordinates", .arr coords)]) = none) :
    mutate_item_for_order env item0 item_id tag oo =
      .error (.valueError "No intersection found between image geometry and AOI coordinates") := by
  unfold mutate_item_for_order
  simp only [hc, Option.getD_some]
  have htr : truthy (Json.arr coords) = true := by
    simp [truthy, hne]
  rw [if_pos htr]
  simp only [update_stac_order_status_geometry]
  rw [if_pos hg]
  unfold coordinates_intersection
  rw [hi]
  rw [if_neg (by simp [truthy])]

/-- An error raised while mutating the fetched item aborts the uploader
before any write: only the two GETs have happened. -/
theorem upload_mutate_error (env : Env) (b c i iid w : String) (oo : Dict)
    (bk tag lu : String) (item0 : StacDoc) (e : PipelineError)
    (hshort : ¬ (getKey (env.locationDoc.properties.getD []) "order:status" =
        some (.str "succeeded") ∨
      getKey (env.locationDoc.properties.getD []) "order:status" = some (.str "pending")))
    (hitem : env.itemResp = .ok item0)
    (hmut : mutate_item_for_order env item0 iid tag oo = .error e) :
    upload_stac_hierarchy_for_order env b c i iid w oo bk tag lu =
      (.error e, [Effect.httpGet ("https://" ++ lu), Effect.httpGet b]) := by
  unfold upload_stac_hierarchy_for_order
  rw [if_neg hshort]
  simp only [hitem, hmut]
  rfl

/-- C7 (amended): for every order with AOI coordinates whose item geometry
has an empty shapely intersection with the AOI polygon, the pipeline aborts
before any blob write by raising
`ValueError("No intersection found between image geometry and AOI coordinates")`,
which the framework surfaces as a 500 server error — not as a 4xx validation
error (the 4xx part of the original claim fails; see the counterexample). -/
theorem order_empty_intersection_aborts (env : Env) (catalog : OrderableCatalogue)
    (collection : OrderableCollection) (item : String) (req : OrderRequest)
    (lic : Option Licence) (bun : Bundle) (ro : Option Dict) (item0 : StacDoc)
    (h1 : validate_licence collection.value (req.licence.map Licence.value) = .ok lic)
    (h2 : validate_product_bundle collection.value req.productBundle.value = .ok bun)
    (h3 : validate_radar_options collection.value req.radarOptions bun.value = .ok ro)
    (hws : env.workspace ≠ "")
    (hshort : ¬ (getKey (env.locationDoc.properties.getD []) "order:status" =
        some (.str "succeeded") ∨
      getKey (env.locationDoc.properties.getD []) "order:status" = some (.str "pending")))
    (hitem : env.itemResp = .ok item0)
    (hcoords : req.coordinates ≠ [])
    (hg : truthy (item0.geometry.getD (.obj [])) = true)
    (hi : env.shapelyIntersection (item0.geometry.getD (.obj []))
        (.obj [("type", .str "Polygon"), ("coordinates", .arr req.coordinates)]) = none) :
    (order_item env catalog collection item req).1 =
      .error (.valueError "No intersection found between image geometry and AOI coordinates") ∧
    outcomeStatus (order_item env catalog collection item req).1 = 500 ∧
    ¬ (400 ≤ outcomeStatus (order_item env catalog collection item req).1 ∧
       outcomeStatus (order_item env catalog collection item req).1 < 500) ∧
    (order_item env catalog collection item req).2.filter Effect.isBlobWrite = [] := by
  have hnorm : normCoords req = some req.coordinates := by
    unfold normCoords
    rw [if_neg (by simp [hcoords])]
  have hck : getKey (orderOptionsDict env.username req.endUserCountry lic bun.value
      (normCoords req) ro) "coordinates" = some (.arr req.coordinates) := by
    rw [hnorm]
    exact getKey_orderOptions_coords env.username req.endUserCountry lic bun.value
      req.coordinates ro
  have hmut := mutate_item_no_intersection env item0 item
    (deriveTag bun.value ro (normCoords req) env.md5hex)
    (orderOptionsDict env.username req.endUserCountry lic bun.value (normCoords req) ro)
    req.coordinates hck hcoords hg hi
  unfold order_item
  simp only [h1, h2, h3]
  rw [if_neg hws]
  rw [upload_mutate_error env (rsplitFirstPart env.orderUrl "/order") catalog.value
    collection.value item env.workspace
    (orderOptionsDict env.username req.endUserCountry lic bun.value (normCoords req) ro)
    s3Bucket (deriveTag bun.value ro (normCoords req) env.md5hex)
    (orderLocationUrl env.workspace catalog.value collection.value item
      (deriveTag bun.value ro (normCoords req) env.md5hex)) item0 _ hshort hitem hmut]
  simp [Effect.isBlobWrite, outcomeStatus, PipelineError.httpStatus]

/-! ## Claim C7 -/

/-- The environment in which the shapely intersection of any two geometries
is empty. -/
def envNoIntersectFixture : Env :=
  { envFixture with shapelyIntersection := fun _ _ => none }

/-- An optical order request supplying AOI coordinates. -/
def reqCoordsFixture : OrderRequest :=
  { productBundle := .optical .basic,
    licence := some (.optical .STANDARD),
    coordinates := [.arr [.arr [.num 1, .num 1], .arr [.num 1, .num 2]]] }

/-- Witness for C7 (amended): an AOI order whose intersection with the item
geometry is empty aborts with the ValueError before any blob write. -/
theorem order_empty_intersection_aborts_witness :
    (order_item envNoIntersectFixture .airbus .spot "item-1" reqCoordsFixture).1 =
      .error (.valueError "No intersection found between image geometry and AOI coordinates") ∧
    (order_item envNoIntersectFixture .airbus .spot "item-1" reqCoordsFixture).2.filter
      Effect.isBlobWrite = [] :=
  ⟨(order_empty_intersection_aborts envNoIntersectFixture .airbus .spot "item-1"
      reqCoordsFixture (some (.optical .STANDARD)) (.optical .basic) none sourceItemFixture
      rfl rfl rfl (by decide) (by decide) rfl (by decide) (by decide) rfl).1,
   (order_empty_intersection_aborts envNoIntersectFixture .airbus .spot "item-1"
      reqCoordsFixture (some (.optical .STANDARD)) (.optical .basic) none sourceItemFixture
      rfl rfl rfl (by decide) (by decide) rfl (by decide) (by decide) rfl).2.2.2⟩

set_option maxRecDepth 20000 in
/-- Counterexample to C7 as stated: the empty-intersection abort is an
uncaught `ValueError`, surfaced by the framework as a 500 server error, not as
a 4xx validation error (though it does abort before any blob write). -/
theorem order_empty_intersection_not_4xx_counterexample :
    (order_item envNoIntersectFixture .airbus .spot "item-1" reqCoordsFixture).1 =
      .error (.valueError "No intersection found between image geometry and AOI coordinates") ∧
    outcomeStatus (order_item envNoIntersectFixture .airbus .spot "item-1"
      reqCoordsFixture).1 = 500 ∧
    ¬ (400 ≤ outcomeStatus (order_item envNoIntersectFixture .airbus .spot "item-1"
        reqCoordsFixture).1 ∧
       outcomeStatus (order_item envNoIntersectFixture .airbus .spot "item-1"
        reqCoordsFixture).1 < 500) :=
  ⟨by decide, by decide, by decide⟩

end RCat

namespace RCat

theorem string_data_append (a b : String) : (a ++ b).data = a.data ++ b.data := rfl

theorem string_data_inj : Function.Injective String.data := by
  intro a b h
  cases a
  cases b
  exact congrArg String.mk h

/-- The pieces a `tagPiece` step contributes. -/
def pieceOf : Option Json → List String
  | some (.str s) => if s = "" then [] else [s]
  | _ => []

/-- Components joined with hyphens, each prefixed. -/
def hyphenParts (cs : List String) : List Char :=
  (cs.map (fun s => '-' :: s.data)).flatten

/-- Hyphen-joined components (no leading separator). -/
def joinHyphen : List (List Char) → List Char
  | [] => []
  | [c] => c
  | c :: c2 :: cs => c ++ '-' :: joinHyphen (c2 :: cs)

theorem hyphenParts_append (a b : List String) :
    hyphenParts (a ++ b) = hyphenParts a ++ hyphenParts b := by
  simp [hyphenParts]

theorem tagPiece_data (tag : String) (v : Option Json) :
    (tagPiece tag v).data = tag.data ++ hyphenParts (pieceOf v) := by
  match v with
  | none => simp [tagPiece, pieceOf, hyphenParts]
  | some (.str s) =>
    by_cases hs : s = ""
    · simp [tagPiece, pieceOf, hyphenParts, hs]
    · simp [tagPiece, pieceOf, hyphenParts, hs, string_data_append]
  | some .null => simp [tagPiece, pieceOf, hyphenParts]
  | some (.bool b) => simp [tagPiece, pieceOf, hyphenParts]
  | some (.num n) => simp [tagPiece, pieceOf, hyphenParts]
  | some (.arr xs) => simp [tagPiece, pieceOf, hyphenParts]
  | some (.obj kvs) => simp [tagPiece, pieceOf, hyphenParts]

theorem joinHyphen_cons_eq (c : String) (cs : List String) :
    joinHyphen ((c :: cs).map String.data) = c.data ++ hyphenParts cs := by
  induction cs generalizing c with
  | nil => simp [joinHyphen, hyphenParts]
  | cons d ds ih =>
    simp only [List.map_cons]
    rw [show joinHyphen (c.data :: d.data :: List.map String.data ds) =
        c.data ++ '-' :: joinHyphen (d.data :: List.map String.data ds) from rfl]
    rw [show (d.data :: List.map String.data ds) = (d :: ds).map String.data from rfl]
    rw [ih]
    simp [hyphenParts]

end RCat

namespace RCat

/-- The radar-options components of the tag. -/
def roComps (ro : Option Dict) : List String :=
  match ro with
  | none => []
  | some d => pieceOf (getKey d "orbit") ++ pieceOf (getKey d "resolutionVariant") ++
      pieceOf (getKey d "projection")

/-- The coordinates component of the tag. -/
def coordsComps (coords : Option (List Json)) (md5 : String → String) : List String :=
  match coords with
  | some cs => [md5 (pyStr (.arr cs))]
  | none => []

/-- The components of the derived tag, in order. -/
def tagComps (bv : String) (ro : Option Dict) (coords : Option (List Json))
    (md5 : String → String) : List String :=
  [bv] ++ roComps ro ++ coordsComps coords md5

/-- The derived tag is the underscore followed by the hyphen-joined
components. -/
theorem deriveTag_data (bv : String) (ro : Option Dict) (coords : Option (List Json))
    (md5 : String → String) :
    (deriveTag bv ro coords md5).data =
      '_' :: joinHyphen ((tagComps bv ro coords md5).map String.data) := by
  have hro : ∀ t0 : String,
      (match ro with
        | none => t0
        | some d =>
            tagPiece (tagPiece (tagPiece t0 (getKey d "orbit"))
              (getKey d "resolutionVariant")) (getKey d "projection")).data =
      t0.data ++ hyphenParts (roComps ro) := by
    intro t0
    cases ro with
    | none => simp [roComps, hyphenParts]
    | some d => simp [roComps, tagPiece_data, hyphenParts_append, List.append_assoc]
  have hcs : ∀ t0 : String,
      (match coords with
        | some cs => t0 ++ "-" ++ md5 (pyStr (.arr cs))
        | none => t0).data = t0.data ++ hyphenParts (coordsComps coords md5) := by
    intro t0
    cases coords with
    | none => simp [coordsComps, hyphenParts]
    | some cs => simp [coordsComps, hyphenParts, string_data_append]
  show ("_" ++ String.mk _).data = _
  rw [string_data_append]
  have h1 : ("" ++ "-" ++ bv).data = hyphenParts [bv] := by
    simp [hyphenParts, string_data_append]
  rw [hcs, hro, h1]
  rw [show tagComps bv ro coords md5 = bv :: (roComps ro ++ coordsComps coords md5) from rfl,
    joinHyphen_cons_eq]
  simp [hyphenParts, string_data_append, List.append_assoc]

/-- Splitting at the first hyphen: if neither prefix contains a hyphen, the
decomposition is unique. -/
theorem hyphen_split (a : List Char) (u b v : List Char) (ha : ('-' : Char) ∉ a)
    (hb : ('-' : Char) ∉ b) (h : a ++ '-' :: u = b ++ '-' :: v) : a = b ∧ u = v := by
  induction a generalizing b with
  | nil =>
    cases b with
    | nil => simpa using h
    | cons y b2 =>
      exfalso
      simp only [List.nil_append, List.cons_append, List.cons.injEq] at h
      exact hb (h.1 ▸ List.mem_cons_self y b2)
  | cons x a2 ih =>
    cases b with
    | nil =>
      exfalso
      simp only [List.nil_append, List.cons_append, List.cons.injEq] at h
      exact ha (h.1 ▸ List.mem_cons_self x a2)
    | cons y b2 =>
      simp only [List.cons_append, List.cons.injEq] at h
      have ha2 : ('-' : Char) ∉ a2 := fun hm => ha (List.mem_cons_of_mem x hm)
      have hb2 : ('-' : Char) ∉ b2 := fun hm => hb (List.mem_cons_of_mem y hm)
      obtain ⟨heq, hu⟩ := ih b2 ha2 hb2 h.2
      exact ⟨by rw [h.1, heq], hu⟩

/-- Hyphen-joining is injective on lists of nonempty hyphen-free
components. -/
theorem joinHyphen_inj (cs : List (List Char)) (ds : List (List Char))
    (hc : ∀ c ∈ cs, c ≠ [] ∧ ('-' : Char) ∉ c)
    (hd : ∀ d ∈ ds, d ≠ [] ∧ ('-' : Char) ∉ d)
    (h : joinHyphen cs = joinHyphen ds) : cs = ds := by
  induction cs generalizing ds with
  | nil =>
    cases ds with
    | nil => rfl
    | cons d ds2 =>
      exfalso
      cases ds2 with
      | nil =>
        simp only [joinHyphen] at h
        exact (hd d (List.mem_cons_self d [])).1 h.symm
      | cons d2 ds3 =>
        simp only [joinHyphen] at h
        exact List.cons_ne_nil '-' _ (List.append_eq_nil.mp h.symm).2
  | cons c cs2 ih =>
    cases ds with
    | nil =>
      exfalso
      cases cs2 with
      | nil =>
        simp only [joinHyphen] at h
        exact (hc c (List.mem_cons_self c [])).1 h
      | cons c2 cs3 =>
        simp only [joinHyphen] at h
        exact List.cons_ne_nil '-' _ (List.append_eq_nil.mp h).2
    | cons d ds2 =>
      cases cs2 with
      | nil =>
        cases ds2 with
        | nil =>
          simp only [joinHyphen] at h
          rw [h]
        | cons d2 ds3 =>
          exfalso
          simp only [joinHyphen] at h
          have hm : ('-' : Char) ∈ c := by
            rw [h]
            exact List.mem_append_right _ (List.mem_cons_self _ _)
          exact (hc c (List.mem_cons_self c [])).2 hm
      | cons c2 cs3 =>
        cases ds2 with
        | nil =>
          exfalso
          simp only [joinHyphen] at h
          have hm : ('-' : Char) ∈ d := by
            rw [← h]
            exact List.mem_append_right _ (List.mem_cons_self _ _)
          exact (hd d (List.mem_cons_self d [])).2 hm
        | cons d2 ds3 =>
          simp only [joinHyphen] at h
          obtain ⟨h1, h2⟩ := hyphen_split c _ d _
            (hc c (List.mem_cons_self c _)).2 (hd d (List.mem_cons_self d _)).2 h
          have hc2 : ∀ x ∈ c2 :: cs3, x ≠ [] ∧ ('-' : Char) ∉ x :=
            fun x hx => hc x (List.mem_cons_of_mem c hx)
          have hd2 : ∀ x ∈ d2 :: ds3, x ≠ [] ∧ ('-' : Char) ∉ x :=
            fun x hx => hd x (List.mem_cons_of_mem d hx)
          rw [h1, ih (d2 :: ds3) hc2 hd2 h2]

/-! ## The tag computed for an order (`order_item` lines 671-693) -/

/-- The validation prefix of `order_item` followed by the tag derivation: the
disambiguating tag computed for an order request against a collection, or the
validation error that aborts the handler first. -/
def orderTag (collectionValue : String) (req : OrderRequest) (md5 : String → String) :
    Except PipelineError String :=
  match validate_licence collectionValue (req.licence.map Licence.value) with
  | .error e => .error e
  | .ok _ =>
  match validate_product_bundle collectionValue req.productBundle.value with
  | .error e => .error e
  | .ok product_bundle =>
  match validate_radar_options collectionValue req.radarOptions product_bundle.value with
  | .error e => .error e
  | .ok radar_options =>
  .ok (deriveTag product_bundle.value radar_options (normCoords req) md5)

theorem orderTag_ok (cv : String) (req : OrderRequest) (md5 : String → String) (t : String)
    (h : orderTag cv req md5 = .ok t) :
    ∃ bun ro,
      validate_product_bundle cv req.productBundle.value = .ok bun ∧
      validate_radar_options cv req.radarOptions bun.value = .ok ro ∧
      t = deriveTag bun.value ro (normCoords req) md5 := by
  unfold orderTag at h
  cases e1 : validate_licence cv (req.licence.map Licence.value) with
  | error e => simp only [e1] at h; exact Except.noConfusion h
  | ok lic =>
  simp only [e1] at h
  cases e2 : validate_product_bundle cv req.productBundle.value with
  | error e => simp only [e2] at h; exact Except.noConfusion h
  | ok bun =>
  simp only [e2] at h
  cases e3 : validate_radar_options cv req.radarOptions bun.value with
  | error e => simp only [e3] at h; exact Except.noConfusion h
  | ok ro =>
  simp only [e3] at h
  cases h
  exact ⟨bun, ro, rfl, e3, rfl⟩

theorem fromValue_value_radar (s : String) (b : ProductBundleRadar)
    (h : ProductBundleRadar.fromValue? s = some b) : b.value = s := by
  unfold ProductBundleRadar.fromValue? at h
  have hp := List.find?_some h
  exact of_decide_eq_true hp

theorem fromValue_value_optical (s : String) (b : ProductBundle)
    (h : ProductBundle.fromValue? s = some b) : b.value = s := by
  unfold ProductBundle.fromValue? at h
  have hp := List.find?_some h
  exact of_decide_eq_true hp

theorem validate_product_bundle_ok_value (cv pv : String) (bun : Bundle)
    (h : validate_product_bundle cv pv = .ok bun) : bun.value = pv := by
  unfold validate_product_bundle at h
  by_cases hc : cv = "airbus_sar_data"
  · rw [if_pos hc] at h
    cases hf : ProductBundleRadar.fromValue? pv with
    | none => simp only [hf] at h; exact Except.noConfusion h
    | some b =>
      simp only [hf] at h
      cases h
      exact fromValue_value_radar pv b hf
  · rw [if_neg hc] at h
    cases hf : ProductBundle.fromValue? pv with
    | none => simp only [hf] at h; exact Except.noConfusion h
    | some b =>
      simp only [hf] at h
      cases h
      exact fromValue_value_optical pv b hf

theorem Bundle_value_inj (b1 b2 : Bundle) (h : b1.value = b2.value) : b1 = b2 := by
  revert h
  cases b1 <;> cases b2 <;> rename_i x y <;> cases x <;> cases y <;> decide

theorem Orbit_value_inj (a b : Orbit) : a.value = b.value → a = b := by
  cases a <;> cases b <;> decide

theorem ResolutionVariant_value_inj (a b : ResolutionVariant) : a.value = b.value → a = b := by
  cases a <;> cases b <;> decide

theorem Projection_airbus_value_inj (a b : Projection) :
    a.airbus_value = b.airbus_value → a = b := by
  cases a <;> cases b <;> decide

theorem collection_value_sar (c : OrderableCollection) (h : c.value = "airbus_sar_data") :
    c = .sar := by
  revert h
  cases c <;> decide

theorem validate_radar_options_ok_sar (ropt : Option RadarOptions) (pv : String)
    (ro : Option Dict)
    (h : validate_radar_options "airbus_sar_data" ropt pv = .ok ro) :
    ∃ o, ropt = some o ∧
      ro = some (setKey o.model_dump "product_type" (.str pv)) ∧
      (pv = "SSC" → o.resolutionVariant = none) ∧
      (pv ≠ "SSC" → o.resolutionVariant ≠ none) ∧
      (pv ∈ ["SSC", "MGD"] → o.projection = none) ∧
      (pv ∉ ["SSC", "MGD"] → o.projection ≠ none) := by
  unfold validate_radar_options at h
  rw [if_neg (by decide)] at h
  cases ropt with
  | none => exact Except.noConfusion h
  | some o =>
  simp only [] at h
  refine ⟨o, rfl, ?_⟩
  by_cases g1 : pv ≠ "SSC" ∧ o.resolutionVariant = none
  · rw [if_pos g1] at h; exact absurd h (by simp)
  · rw [if_neg g1] at h
    by_cases g2 : pv = "SSC" ∧ o.resolutionVariant ≠ none
    · rw [if_pos g2] at h; exact absurd h (by simp)
    · rw [if_neg g2] at h
      by_cases g3 : pv ∉ ["SSC", "MGD"] ∧ o.projection = none
      · rw [if_pos g3] at h; exact absurd h (by simp)
      · rw [if_neg g3] at h
        by_cases g4 : pv ∈ ["SSC", "MGD"] ∧ o.projection ≠ none
        · rw [if_pos g4] at h; exact absurd h (by simp)
        · rw [if_neg g4] at h
          cases h
          refine ⟨rfl, ?_, ?_, ?_, ?_⟩
          · intro hp; by_contra hrv; exact g2 ⟨hp, hrv⟩
          · intro hp hrv; exact g1 ⟨hp, hrv⟩
          · intro hp; by_contra hpj; exact g4 ⟨hp, hpj⟩
          · intro hp hpj; exact g3 ⟨hp, hpj⟩

theorem validate_radar_options_ok_nonsar (cv : String) (ropt : Option RadarOptions)
    (pv : String) (ro : Option Dict) (hc : cv ≠ "airbus_sar_data")
    (h : validate_radar_options cv ropt pv = .ok ro) : ro = none := by
  unfold validate_radar_options at h
  rw [if_pos hc] at h
  exact (Except.ok.inj h).symm

theorem roComps_sarDump (o : RadarOptions) (pv : String) :
    roComps (some (setKey o.model_dump "product_type" (.str pv))) =
      [o.orbit.value] ++
      (match o.resolutionVariant with | some a => [a.value] | none => []) ++
      (match o.projection with | some a => [a.airbus_value] | none => []) := by
  obtain ⟨ob, rv, pj⟩ := o
  cases ob <;> rcases rv with _ | (_ | _) <;> rcases pj with _ | (_ | _ | _) <;> rfl

theorem bundle_value_good (b : Bundle) : b.value ≠ "" ∧ ('-' : Char) ∉ b.value.data := by
  cases b <;> rename_i x <;> cases x <;> exact ⟨by decide, by decide⟩

theorem orbit_value_good (a : Orbit) : a.value ≠ "" ∧ ('-' : Char) ∉ a.value.data := by
  cases a <;> exact ⟨by decide, by decide⟩

theorem rv_value_good (a : ResolutionVariant) :
    a.value ≠ "" ∧ ('-' : Char) ∉ a.value.data := by
  cases a <;> exact ⟨by decide, by decide⟩

theorem pj_value_good (a : Projection) :
    a.airbus_value ≠ "" ∧ ('-' : Char) ∉ a.airbus_value.data := by
  cases a <;> exact ⟨by decide, by decide⟩

/-- Every component of the tag of a validated order is a nonempty string
without a hyphen (the md5 hypothesis covers the coordinates digest). -/
theorem tagComps_good (cv : String) (req : OrderRequest) (md5 : String → String)
    (bun : Bundle) (ro : Option Dict)
    (hmd : ∀ s, md5 s ≠ "" ∧ ('-' : Char) ∉ (md5 s).data)
    (h3 : validate_radar_options cv req.radarOptions bun.value = .ok ro) :
    ∀ x ∈ (tagComps bun.value ro (normCoords req) md5).map String.data,
      x ≠ [] ∧ ('-' : Char) ∉ x := by
  intro x hx
  rw [List.mem_map] at hx
  obtain ⟨s, hs, rfl⟩ := hx
  suffices hgood : s ≠ "" ∧ ('-' : Char) ∉ s.data by
    refine ⟨fun hnil => hgood.1 (string_data_inj (show s.data = ("" : String).data by simpa using hnil)), hgood.2⟩
  simp only [tagComps, List.mem_append, List.mem_singleton] at hs
  rcases hs with (hs | hs) | hs
  · subst hs
    exact bundle_value_good bun
  · by_cases hc : cv = "airbus_sar_data"
    · rw [hc] at h3
      obtain ⟨o, ho, hro, _, _, _, _⟩ := validate_radar_options_ok_sar _ _ _ h3
      rw [hro, roComps_sarDump] at hs
      cases hrv : o.resolutionVariant <;> cases hpj : o.projection <;>
        simp only [hrv, hpj, List.append_nil, List.nil_append, List.cons_append,
          List.mem_singleton, List.mem_cons, List.not_mem_nil, or_false] at hs
      · subst hs; exact orbit_value_good o.orbit
      · rcases hs with hs | hs
        · subst hs; exact orbit_value_good o.orbit
        · subst hs; rename_i a; exact pj_value_good a
      · rcases hs with hs | hs
        · subst hs; exact orbit_value_good o.orbit
        · subst hs; rename_i a; exact rv_value_good a
      · rcases hs with hs | hs | hs
        · subst hs; exact orbit_value_good o.orbit
        · subst hs; rename_i a b; exact rv_value_good a
        · subst hs; rename_i a b; exact pj_value_good b
    · rw [validate_radar_options_ok_nonsar cv _ _ _ hc h3] at hs
      simp [roComps] at hs
  · unfold coordsComps at hs
    cases hnc : normCoords req with
    | none => simp only [hnc] at hs; simp at hs
    | some cs =>
      simp only [hnc, List.mem_singleton] at hs
      subst hs
      exact hmd _

theorem list_isEmpty_eq_nil {α : Type} (l : List α) (h : l.isEmpty = true) : l = [] := by
  cases l with
  | nil => rfl
  | cons a as => exact absurd h (by simp [List.isEmpty])

/-- Equal coordinate components force equal AOI coordinate lists, given that
the digest is injective on the two coordinate strings. -/
theorem coords_eq_of_comps (r1 r2 : OrderRequest) (md5 : String → String)
    (hinj : md5 (pyStr (.arr r1.coordinates)) = md5 (pyStr (.arr r2.coordinates)) →
      r1.coordinates = r2.coordinates)
    (h : coordsComps (normCoords r1) md5 = coordsComps (normCoords r2) md5) :
    r1.coordinates = r2.coordinates := by
  unfold normCoords coordsComps at h
  by_cases e1 : r1.coordinates.isEmpty = true <;>
    by_cases e2 : r2.coordinates.isEmpty = true
  · rw [list_isEmpty_eq_nil _ e1, list_isEmpty_eq_nil _ e2]
  · rw [if_pos e1, if_neg e2] at h
    simp at h
  · rw [if_neg e1, if_pos e2] at h
    simp at h
  · rw [if_neg e1, if_neg e2] at h
    simp only [List.cons.injEq, and_true] at h
    exact hinj h

theorem RadarOptions_ext (a b : RadarOptions) (g1 : a.orbit = b.orbit)
    (g2 : a.resolutionVariant = b.resolutionVariant) (g3 : a.projection = b.projection) :
    a = b := by
  cases a
  cases b
  congr 1

set_option maxRecDepth 20000 in
/-- C5 (amended): the derived tag is a deterministic function of the product
bundle, the radar options and the AOI coordinates, and on the radar collection
it is also injective in those fields; but on the non-radar collections the
radar options are ignored (validation discards them), so two requests
differing only in radar options derive the same tag.  Precisely: for two
requests accepted by the validators against the same orderable collection,
assuming the digest function returns nonempty hyphen-free strings and is
injective on the two coordinate strings, the tags are equal exactly when the
product bundles agree, the coordinates agree, and - on the SAR collection
only - the radar options agree. -/
theorem order_tag_deterministic_injective (c : OrderableCollection)
    (r1 r2 : OrderRequest) (md5 : String → String) (t1 t2 : String)
    (hmd : ∀ s, md5 s ≠ "" ∧ ('-' : Char) ∉ (md5 s).data)
    (hinj : md5 (pyStr (.arr r1.coordinates)) = md5 (pyStr (.arr r2.coordinates)) →
      r1.coordinates = r2.coordinates)
    (h1 : orderTag c.value r1 md5 = .ok t1)
    (h2 : orderTag c.value r2 md5 = .ok t2) :
    t1 = t2 ↔
      (r1.productBundle = r2.productBundle ∧ r1.coordinates = r2.coordinates ∧
        (c = .sar → r1.radarOptions = r2.radarOptions)) := by
  obtain ⟨bun1, ro1, hb1, hr1, ht1⟩ := orderTag_ok _ _ _ _ h1
  obtain ⟨bun2, ro2, hb2, hr2, ht2⟩ := orderTag_ok _ _ _ _ h2
  have hbv1 := validate_product_bundle_ok_value _ _ _ hb1
  have hbv2 := validate_product_bundle_ok_value _ _ _ hb2
  constructor
  · intro ht
    have hdata : (deriveTag bun1.value ro1 (normCoords r1) md5).data =
        (deriveTag bun2.value ro2 (normCoords r2) md5).data := by
      rw [← ht1, ← ht2, ht]
    rw [deriveTag_data, deriveTag_data] at hdata
    injection hdata with hu hj
    have hcomps := joinHyphen_inj _ _
      (tagComps_good c.value r1 md5 bun1 ro1 hmd hr1)
      (tagComps_good c.value r2 md5 bun2 ro2 hmd hr2) hj
    have hcomps2 : tagComps bun1.value ro1 (normCoords r1) md5 =
        tagComps bun2.value ro2 (normCoords r2) md5 :=
      List.map_injective_iff.mpr string_data_inj hcomps
    unfold tagComps at hcomps2
    simp only [List.append_assoc, List.singleton_append] at hcomps2
    injection hcomps2 with hbv htail
    have hpb : r1.productBundle = r2.productBundle :=
      Bundle_value_inj _ _ (by rw [← hbv1, ← hbv2, hbv])
    have hbun : bun1 = bun2 := Bundle_value_inj _ _ hbv
    subst hbun
    by_cases hc : c.value = "airbus_sar_data"
    · rw [hc] at hr1 hr2
      obtain ⟨o1, ho1, hro1, hs1, hn1, hp1, hq1⟩ := validate_radar_options_ok_sar _ _ _ hr1
      obtain ⟨o2, ho2, hro2, hs2, hn2, hp2, hq2⟩ := validate_radar_options_ok_sar _ _ _ hr2
      rw [hro1, roComps_sarDump, hro2, roComps_sarDump] at htail
      have hrvs : o1.resolutionVariant = none ↔ o2.resolutionVariant = none := by
        by_cases hpv : bun1.value = "SSC"
        · simp [hs1 hpv, hs2 hpv]
        · constructor
          · intro hn; exact absurd hn (hn1 hpv)
          · intro hn; exact absurd hn (hn2 hpv)
      have hpjs : o1.projection = none ↔ o2.projection = none := by
        by_cases hpv : bun1.value ∈ ["SSC", "MGD"]
        · simp [hp1 hpv, hp2 hpv]
        · constructor
          · intro hn; exact absurd hn (hq1 hpv)
          · intro hn; exact absurd hn (hq2 hpv)
      suffices ho12 : o1 = o2 ∧ r1.coordinates = r2.coordinates by
        refine ⟨hpb, ho12.2, fun _ => ?_⟩
        rw [ho1, ho2, ho12.1]
      cases hrv1 : o1.resolutionVariant with
      | none =>
        have hrv2 : o2.resolutionVariant = none := hrvs.mp hrv1
        cases hpj1 : o1.projection with
        | none =>
          have hpj2 : o2.projection = none := hpjs.mp hpj1
          simp only [hrv1, hrv2, hpj1, hpj2, List.append_eq, List.append_nil,
            List.nil_append, List.singleton_append, List.cons_append,
            List.cons.injEq] at htail
          obtain ⟨e1, e4⟩ := htail
          exact ⟨RadarOptions_ext o1 o2 (Orbit_value_inj _ _ e1)
              (by rw [hrv1, hrv2]) (by rw [hpj1, hpj2]),
            coords_eq_of_comps r1 r2 md5 hinj e4⟩
        | some p1 =>
          have hpj2n : o2.projection ≠ none := by
            intro hn
            rw [hpjs.mpr hn] at hpj1
            exact Option.noConfusion hpj1
          cases hpj2 : o2.projection with
          | none => exact absurd hpj2 hpj2n
          | some p2 =>
            simp only [hrv1, hrv2, hpj1, hpj2, List.append_eq, List.append_nil,
              List.nil_append, List.singleton_append, List.cons_append,
              List.cons.injEq] at htail
            obtain ⟨e1, e3, e4⟩ := htail
            exact ⟨RadarOptions_ext o1 o2 (Orbit_value_inj _ _ e1)
                (by rw [hrv1, hrv2])
                (by rw [hpj1, hpj2, Projection_airbus_value_inj _ _ e3]),
              coords_eq_of_comps r1 r2 md5 hinj e4⟩
      | some a1 =>
        have hrv2n : o2.resolutionVariant ≠ none := by
          intro hn
          rw [hrvs.mpr hn] at hrv1
          exact Option.noConfusion hrv1
        cases hrv2 : o2.resolutionVariant with
        | none => exact absurd hrv2 hrv2n
        | some a2 =>
          cases hpj1 : o1.projection with
          | none =>
            have hpj2 : o2.projection = none := hpjs.mp hpj1
            simp only [hrv1, hrv2, hpj1, hpj2, List.append_eq, List.append_nil,
              List.nil_append, List.singleton_append, List.cons_append,
              List.cons.injEq] at htail
            obtain ⟨e1, e2, e4⟩ := htail
            exact ⟨RadarOptions_ext o1 o2 (Orbit_value_inj _ _ e1)
                (by rw [hrv1, hrv2, ResolutionVariant_value_inj _ _ e2])
                (by rw [hpj1, hpj2]),
              coords_eq_of_comps r1 r2 md5 hinj e4⟩
          | some p1 =>
            have hpj2n : o2.projection ≠ none := by
              intro hn
              rw [hpjs.mpr hn] at hpj1
              exact Option.noConfusion hpj1
            cases hpj2 : o2.projection with
            | none => exact absurd hpj2 hpj2n
            | some p2 =>
              simp only [hrv1, hrv2, hpj1, hpj2, List.append_eq, List.append_nil,
                List.nil_append, List.singleton_append, List.cons_append,
                List.cons.injEq] at htail
              obtain ⟨e1, e2, e3, e4⟩ := htail
              exact ⟨RadarOptions_ext o1 o2 (Orbit_value_inj _ _ e1)
                  (by rw [hrv1, hrv2, ResolutionVariant_value_inj _ _ e2])
                  (by rw [hpj1, hpj2, Projection_airbus_value_inj _ _ e3]),
                coords_eq_of_comps r1 r2 md5 hinj e4⟩
    · rw [validate_radar_options_ok_nonsar _ _ _ _ hc hr1,
        validate_radar_options_ok_nonsar _ _ _ _ hc hr2] at htail
      simp only [roComps, List.nil_append] at htail
      refine ⟨hpb, coords_eq_of_comps r1 r2 md5 hinj htail, fun hcs => ?_⟩
      subst hcs
      exact absurd rfl hc
  · rintro ⟨hpb, hcoords, hro⟩
    have hbun : bun1 = bun2 := by
      have heq : validate_product_bundle c.value r1.productBundle.value =
          validate_product_bundle c.value r2.productBundle.value := by rw [hpb]
      rw [hb1, hb2] at heq
      exact Except.ok.inj heq
    have hron : ro1 = ro2 := by
      by_cases hc : c.value = "airbus_sar_data"
      · have hrr : r1.radarOptions = r2.radarOptions := hro (collection_value_sar c hc)
        have heq : validate_radar_options c.value r1.radarOptions bun1.value =
            validate_radar_options c.value r2.radarOptions bun2.value := by
          rw [hrr, hbun]
        rw [hr1, hr2] at heq
        exact Except.ok.inj heq
      · rw [validate_radar_options_ok_nonsar _ _ _ _ hc hr1,
          validate_radar_options_ok_nonsar _ _ _ _ hc hr2]
    have hnc : normCoords r1 = normCoords r2 := by
      unfold normCoords
      rw [hcoords]
    rw [ht1, ht2, hbun, hron, hnc]

/-- The optical order request of `reqOpticalFixture` with radar options
attached (they are ignored by validation on optical collections). -/
def reqOpticalRadarFixture : OrderRequest :=
  { reqOpticalFixture with radarOptions := some { orbit := .RAPID } }

/-- A valid radar order request identical to `reqGecFixture` except for the
orbit (science instead of rapid). -/
def reqGecScienceFixture : OrderRequest :=
  { reqGecFixture with
    radarOptions := some { orbit := .SCIENCE, resolutionVariant := some .RE,
                           projection := some .AUTO } }

set_option maxRecDepth 20000 in
/-- Counterexample to C5 as stated: on the PHR optical collection the radar
options are discarded by validation, so two order requests that differ in
`radarOptions` (one omits them, one supplies an orbit) derive the same tag. -/
theorem order_tag_radar_options_collision_counterexample :
    reqOpticalFixture.radarOptions ≠ reqOpticalRadarFixture.radarOptions ∧
    orderTag (OrderableCollection.phr).value reqOpticalFixture md5Fixture =
      .ok "_General use" ∧
    orderTag (OrderableCollection.phr).value reqOpticalRadarFixture md5Fixture =
      .ok "_General use" :=
  ⟨by decide, by decide, by decide⟩

set_option maxRecDepth 20000 in
/-- Witness for C5 (amended): two valid SAR orders differing only in the
orbit have different tags, by the injectivity direction of the theorem applied
at the concrete requests. -/
theorem order_tag_deterministic_injective_witness :
    ("_GEC-rapid-RE-auto" : String) ≠ "_GEC-science-RE-auto" := by
  intro ht
  have hiff := (order_tag_deterministic_injective .sar reqGecFixture reqGecScienceFixture
    md5Fixture "_GEC-rapid-RE-auto" "_GEC-science-RE-auto"
    (fun s =>
      ⟨show ("0123456789abcdef0123456789abcdef" : String) ≠ "" by decide,
       show ('-' : Char) ∉ ("0123456789abcdef0123456789abcdef" : String).data by decide⟩)
    (fun _ => rfl) (by decide) (by decide)).mp ht
  exact absurd (hiff.2.2 rfl) (by decide)

end RCat
